import Mathlib

/-!
MCE: common state broadcasting and the power saving mode module.

A shallow embedding of `mce-common.c` and `modules/powersavemode.c`.

Conventions of the embedding:

* C `static` variables become fields of a state record; every C function that
  reads or writes them becomes a function from the record to a new record and
  the list of D-Bus messages it handed to `dbus_send_message`, in order.
* `gint`, `dbus_int32_t` and `gboolean` are `Int`.  No arithmetic is performed
  on them by the embedded code (only comparisons and assignments), so no
  wrap-around can occur.  `TRUE` is 1 and `FALSE` is 0, as in GLib.
* A `const char *` is a `CStr`: the address held by the pointer together with
  the characters found there.  `==` on pointers compares addresses, `strcmp`
  compares characters.  The null pointer is address 0.
* Whether `dbus_message_append_args` succeeds is decided by the D-Bus library;
  it is an explicit boolean input `append_ok` of every function that calls it.
* `mce_log` has no effect on the state or on the bus and is left out.
-/

namespace MCE

/-! ## Shared vocabulary -/

/-- GLib truth value `TRUE`. -/
def TRUE : Int := 1

/-- GLib truth value `FALSE`. -/
def FALSE : Int := 0

/-- Modelled from the spec: the enumeration `charger_state_t` is declared in a
header that is not part of the sources at hand.  The sources name
`CHARGER_STATE_UNDEF` and `CHARGER_STATE_ON`; the specification lists the
states as undefined, off and on. -/
inductive charger_state_t where
  | CHARGER_STATE_UNDEF
  | CHARGER_STATE_OFF
  | CHARGER_STATE_ON
  deriving DecidableEq, Repr

/-- Modelled from the spec: the enumeration `thermal_state_t` is declared in a
header that is not part of the sources at hand.  The sources name
`THERMAL_STATE_UNDEF`, `THERMAL_STATE_OK` and `THERMAL_STATE_OVERHEATED`; the
specification lists the states as ok, overheated and unknown. -/
inductive thermal_state_t where
  | THERMAL_STATE_UNDEF
  | THERMAL_STATE_OK
  | THERMAL_STATE_OVERHEATED
  deriving DecidableEq, Repr

/-- The enumeration `usb_cable_state_t` is declared outside the sources at
hand; it is represented by its underlying C `int`. -/
abbrev usb_cable_state_t := Int

/-- The enumeration `battery_status_t` is declared outside the sources at
hand; it is represented by its underlying C `int`. -/
abbrev battery_status_t := Int

/-- A C string constant: the pointer value and the characters it points at. -/
structure CStr where
  addr : Nat
  text : String
  deriving DecidableEq, Repr

/-- An incoming D-Bus method call, as far as the handlers look at it: an
identity and the flag read by `dbus_message_get_no_reply`. -/
structure MethodCall where
  serial : Nat
  no_reply : Bool
  deriving DecidableEq, Repr

/-- The signals the two files construct with `dbus_new_signal`. -/
inductive SignalName where
  | MCE_USB_CABLE_STATE_SIG
  | MCE_CHARGER_STATE_SIG
  | MCE_BATTERY_STATUS_SIG
  | MCE_BATTERY_LEVEL_SIG
  | MCE_PSM_STATE_SIG
  deriving DecidableEq, Repr

/-- The single argument appended to a message. -/
inductive Arg where
  | string (s : String)
  | int32 (v : Int)
  | boolean (v : Int)
  deriving DecidableEq, Repr

/-- A message handed to `dbus_send_message`: a signal made by
`dbus_new_signal`, or a reply made by `dbus_new_method_reply`. -/
inductive Sent where
  | signal (name : SignalName) (arg : Arg)
  | reply (req : MethodCall) (arg : Arg)
  deriving DecidableEq, Repr

/-- Tells whether a sent message is a signal. -/
def Sent.isSignal : Sent → Bool
  | Sent.signal _ _ => true
  | Sent.reply _ _ => false

/-- The signals among the messages sent. -/
def signals (out : List Sent) : List Sent :=
  out.filter Sent.isSignal

/-! ## modules/powersavemode.c -/

/-- The static variables of `powersavemode.c`. -/
structure PsmState where
  battery_level : Int
  charger_state : charger_state_t
  power_saving_mode : Int
  power_saving_mode_setting_id : Nat
  force_psm : Int
  force_psm_setting_id : Nat
  psm_threshold : Int
  psm_threshold_setting_id : Nat
  active_power_saving_mode : Int
  thermal_state : thermal_state_t
  deriving DecidableEq, Repr

/-- What `powersavemode.c` does to the outside: values pushed to
`power_saving_mode_active_pipe` with `datapipe_exec_full`, and D-Bus messages
handed to `dbus_send_message`. -/
inductive PsmOut where
  | datapipe_exec_full (value : Int)
  | dbus (msg : Sent)
  deriving DecidableEq, Repr

/-- Source function `send_psm_state`: builds a reply to `method_call`, or the PSM state signal
when `method_call` is NULL, appends `active_power_saving_mode` and sends the
message.  Returns the messages sent and the status; `send_ok` is the result of
`dbus_send_message`. -/
def send_psm_state (s : PsmState) (method_call : Option MethodCall)
    (append_ok send_ok : Bool) : List Sent × Bool :=
  let msg : Arg → Sent :=
    match method_call with
    | some m => Sent.reply m
    | none => Sent.signal SignalName.MCE_PSM_STATE_SIG
  if append_ok = false then
    ([], false)
  else
    ([msg (Arg.boolean s.active_power_saving_mode)], send_ok)

/-- The value that `update_power_saving_mode` assigns to its local variable
`new_power_saving_mode`. -/
def new_power_saving_mode (s : PsmState) : Int :=
  if ((((decide (s.battery_level ≤ s.psm_threshold) &&
         decide (s.power_saving_mode = TRUE)) ||
        decide (s.force_psm = TRUE)) &&
       decide (s.charger_state ≠ charger_state_t.CHARGER_STATE_ON)) ||
      decide (s.thermal_state = thermal_state_t.THERMAL_STATE_OVERHEATED)) then
    TRUE
  else
    FALSE

/-- Source function `update_power_saving_mode`. -/
def update_power_saving_mode (s : PsmState) (append_ok send_ok : Bool) :
    PsmState × List PsmOut :=
  let new_psm := new_power_saving_mode s
  if s.active_power_saving_mode ≠ new_psm then
    let s1 := { s with active_power_saving_mode := new_psm }
    (s1, PsmOut.datapipe_exec_full s1.active_power_saving_mode ::
           (send_psm_state s1 none append_ok send_ok).1.map PsmOut.dbus)
  else
    (s, [])

/-- Source function `battery_level_trigger`. -/
def battery_level_trigger (s : PsmState) (data : Int) (append_ok send_ok : Bool) :
    PsmState × List PsmOut :=
  update_power_saving_mode { s with battery_level := data } append_ok send_ok

/-- Source function `charger_state_trigger`. -/
def charger_state_trigger (s : PsmState) (data : charger_state_t)
    (append_ok send_ok : Bool) : PsmState × List PsmOut :=
  update_power_saving_mode { s with charger_state := data } append_ok send_ok

/-- Source function `thermal_state_trigger`. -/
def thermal_state_trigger (s : PsmState) (data : thermal_state_t)
    (append_ok send_ok : Bool) : PsmState × List PsmOut :=
  update_power_saving_mode { s with thermal_state := data } append_ok send_ok

/-- The value carried by a changed settings entry (`GConfValue`). -/
inductive GConfValue where
  | bool (b : Int)
  | int (i : Int)
  deriving DecidableEq, Repr

/-- Settings library function `gconf_value_get_bool` (outside the sources at
hand): the boolean held by the value, `FALSE` for a value of another type. -/
def gconf_value_get_bool : GConfValue → Int
  | GConfValue.bool b => b
  | GConfValue.int _ => FALSE

/-- Settings library function `gconf_value_get_int` (outside the sources at
hand): the integer held by the value, 0 for a value of another type. -/
def gconf_value_get_int : GConfValue → Int
  | GConfValue.int i => i
  | GConfValue.bool _ => 0

/-- Source function `psm_setting_cb`: `gcv` is the result of `gconf_entry_get_value`, NULL for
an unset key. -/
def psm_setting_cb (s : PsmState) (id : Nat) (gcv : Option GConfValue)
    (append_ok send_ok : Bool) : PsmState × List PsmOut :=
  match gcv with
  | none => (s, [])
  | some v =>
    if id = s.power_saving_mode_setting_id then
      update_power_saving_mode { s with power_saving_mode := gconf_value_get_bool v }
        append_ok send_ok
    else if id = s.force_psm_setting_id then
      update_power_saving_mode { s with force_psm := gconf_value_get_bool v }
        append_ok send_ok
    else if id = s.psm_threshold_setting_id then
      update_power_saving_mode { s with psm_threshold := gconf_value_get_int v }
        append_ok send_ok
    else
      (s, [])

/-- Source function `psm_state_get_dbus_cb`: returns the messages sent and the handler status. -/
def psm_state_get_dbus_cb (s : PsmState) (msg : MethodCall)
    (append_ok send_ok : Bool) : List Sent × Bool :=
  let r := send_psm_state s (some msg) append_ok send_ok
  if r.2 = false then
    (r.1, false)
  else
    (r.1, true)

/-- Encoding of a truth value as a `gboolean`. -/
def gboolean_of (b : Bool) : Int :=
  if b then TRUE else FALSE

/-! ## mce-common.c -/

/-- What `mce-common.c` takes from headers and helpers outside the sources at
hand: the three functions that turn a state into its D-Bus string constant,
and the constant `MCE_BATTERY_LEVEL_UNKNOWN`. -/
structure CommonEnv where
  usb_cable_state_to_dbus : usb_cable_state_t → CStr
  charger_state_to_dbus : charger_state_t → CStr
  battery_status_to_dbus : battery_status_t → CStr
  MCE_BATTERY_LEVEL_UNKNOWN : Int

/-- The static variables of `mce-common.c`.  The four `*_last` fields are the
function-local `static ... last` variables of the four
`common_dbus_send_*` functions (a pointer for the string channels, a
`dbus_int32_t` for the battery level). -/
structure CommonState where
  usb_cable_state : usb_cable_state_t
  charger_state : charger_state_t
  battery_status : battery_status_t
  battery_level : Int
  usb_cable_state_last : Nat
  charger_state_last : Nat
  battery_status_last : Nat
  battery_level_last : Int
  common_dbus_initial_id : Nat
  deriving DecidableEq, Repr

/-- Source function `common_dbus_send_usb_cable_state`.  The first step chooses the message
(`none` stands for the jump to `EXIT` with no message); the second appends the
argument and sends. -/
def common_dbus_send_usb_cable_state (env : CommonEnv) (s : CommonState)
    (req : Option MethodCall) (append_ok : Bool) : CommonState × List Sent :=
  let value := env.usb_cable_state_to_dbus s.usb_cable_state
  let chosen : Option (CommonState × (Arg → Sent)) :=
    match req with
    | some r => some (s, Sent.reply r)
    | none =>
      if s.usb_cable_state_last = value.addr then
        none
      else
        some ({ s with usb_cable_state_last := value.addr },
              Sent.signal SignalName.MCE_USB_CABLE_STATE_SIG)
  match chosen with
  | none => (s, [])
  | some (s1, msg) =>
    if append_ok = false then
      (s1, [])
    else
      (s1, [msg (Arg.string value.text)])

/-- Source function `common_dbus_get_usb_cable_state_cb` (it always returns `TRUE`). -/
def common_dbus_get_usb_cable_state_cb (env : CommonEnv) (s : CommonState)
    (req : MethodCall) (append_ok : Bool) : CommonState × List Sent :=
  if req.no_reply = false then
    common_dbus_send_usb_cable_state env s (some req) append_ok
  else
    (s, [])

/-- Source function `common_dbus_send_charger_state`. -/
def common_dbus_send_charger_state (env : CommonEnv) (s : CommonState)
    (req : Option MethodCall) (append_ok : Bool) : CommonState × List Sent :=
  let value := env.charger_state_to_dbus s.charger_state
  let chosen : Option (CommonState × (Arg → Sent)) :=
    match req with
    | some r => some (s, Sent.reply r)
    | none =>
      if s.charger_state_last = value.addr then
        none
      else
        some ({ s with charger_state_last := value.addr },
              Sent.signal SignalName.MCE_CHARGER_STATE_SIG)
  match chosen with
  | none => (s, [])
  | some (s1, msg) =>
    if append_ok = false then
      (s1, [])
    else
      (s1, [msg (Arg.string value.text)])

/-- Source function `common_dbus_get_charger_state_cb` (it always returns `TRUE`). -/
def common_dbus_get_charger_state_cb (env : CommonEnv) (s : CommonState)
    (req : MethodCall) (append_ok : Bool) : CommonState × List Sent :=
  if req.no_reply = false then
    common_dbus_send_charger_state env s (some req) append_ok
  else
    (s, [])

/-- Source function `common_dbus_send_battery_status`. -/
def common_dbus_send_battery_status (env : CommonEnv) (s : CommonState)
    (req : Option MethodCall) (append_ok : Bool) : CommonState × List Sent :=
  let value := env.battery_status_to_dbus s.battery_status
  let chosen : Option (CommonState × (Arg → Sent)) :=
    match req with
    | some r => some (s, Sent.reply r)
    | none =>
      if s.battery_status_last = value.addr then
        none
      else
        some ({ s with battery_status_last := value.addr },
              Sent.signal SignalName.MCE_BATTERY_STATUS_SIG)
  match chosen with
  | none => (s, [])
  | some (s1, msg) =>
    if append_ok = false then
      (s1, [])
    else
      (s1, [msg (Arg.string value.text)])

/-- Source function `common_dbus_get_battery_status_cb` (it always returns `TRUE`). -/
def common_dbus_get_battery_status_cb (env : CommonEnv) (s : CommonState)
    (req : MethodCall) (append_ok : Bool) : CommonState × List Sent :=
  if req.no_reply = false then
    common_dbus_send_battery_status env s (some req) append_ok
  else
    (s, [])

/-- The local `value` of `common_dbus_send_battery_level` after the step
"Normalize to values allowed by MCE D-Bus api documentation". -/
def battery_level_value (env : CommonEnv) (battery_level : Int) : Int :=
  if battery_level < 0 then
    env.MCE_BATTERY_LEVEL_UNKNOWN
  else if battery_level > 100 then
    100
  else
    battery_level

/-- Source function `common_dbus_send_battery_level`. -/
def common_dbus_send_battery_level (env : CommonEnv) (s : CommonState)
    (req : Option MethodCall) (append_ok : Bool) : CommonState × List Sent :=
  let value := battery_level_value env s.battery_level
  let chosen : Option (CommonState × (Arg → Sent)) :=
    match req with
    | some r => some (s, Sent.reply r)
    | none =>
      if s.battery_level_last = value then
        none
      else
        some ({ s with battery_level_last := value },
              Sent.signal SignalName.MCE_BATTERY_LEVEL_SIG)
  match chosen with
  | none => (s, [])
  | some (s1, msg) =>
    if append_ok = false then
      (s1, [])
    else
      (s1, [msg (Arg.int32 value)])

/-- Source function `common_dbus_get_battery_level_cb` (it always returns `TRUE`). -/
def common_dbus_get_battery_level_cb (env : CommonEnv) (s : CommonState)
    (req : MethodCall) (append_ok : Bool) : CommonState × List Sent :=
  if req.no_reply = false then
    common_dbus_send_battery_level env s (some req) append_ok
  else
    (s, [])

/-- Source function `common_datapipe_usb_cable_state_cb`. -/
def common_datapipe_usb_cable_state_cb (env : CommonEnv) (s : CommonState)
    (data : usb_cable_state_t) (append_ok : Bool) : CommonState × List Sent :=
  let prev := s.usb_cable_state
  let s1 := { s with usb_cable_state := data }
  if s1.usb_cable_state = prev then
    (s1, [])
  else
    let value_old := env.usb_cable_state_to_dbus prev
    let value_new := env.usb_cable_state_to_dbus s1.usb_cable_state
    if value_old.text = value_new.text then
      (s1, [])
    else
      common_dbus_send_usb_cable_state env s1 none append_ok

/-- Source function `common_datapipe_charger_state_cb`. -/
def common_datapipe_charger_state_cb (env : CommonEnv) (s : CommonState)
    (data : charger_state_t) (append_ok : Bool) : CommonState × List Sent :=
  let prev := s.charger_state
  let s1 := { s with charger_state := data }
  if s1.charger_state = prev then
    (s1, [])
  else
    common_dbus_send_charger_state env s1 none append_ok

/-- Source function `common_datapipe_battery_status_cb`. -/
def common_datapipe_battery_status_cb (env : CommonEnv) (s : CommonState)
    (data : battery_status_t) (append_ok : Bool) : CommonState × List Sent :=
  let prev := s.battery_status
  let s1 := { s with battery_status := data }
  if s1.battery_status = prev then
    (s1, [])
  else
    common_dbus_send_battery_status env s1 none append_ok

/-- Source function `common_datapipe_battery_level_cb`. -/
def common_datapipe_battery_level_cb (env : CommonEnv) (s : CommonState)
    (data : Int) (append_ok : Bool) : CommonState × List Sent :=
  let prev := s.battery_level
  let s1 := { s with battery_level := data }
  if s1.battery_level = prev then
    (s1, [])
  else
    common_dbus_send_battery_level env s1 none append_ok

/-! ## Sample instances used to evaluate the definitions -/

/-- A sample environment: a cable renderer in which two internal states share
the string "connected", one string constant per distinct text, and -1 as the
unknown battery level. -/
def sampleEnv : CommonEnv where
  usb_cable_state_to_dbus := fun st =>
    if st = 0 then ⟨4096, "disconnected"⟩
    else if st = 1 ∨ st = 2 then ⟨4112, "connected"⟩
    else ⟨4128, "unknown"⟩
  charger_state_to_dbus := fun st =>
    match st with
    | charger_state_t.CHARGER_STATE_ON => ⟨4144, "on"⟩
    | charger_state_t.CHARGER_STATE_OFF => ⟨4148, "off"⟩
    | charger_state_t.CHARGER_STATE_UNDEF => ⟨4128, "unknown"⟩
  battery_status_to_dbus := fun st =>
    if st = 0 then ⟨4160, "full"⟩
    else if st = 1 then ⟨4168, "ok"⟩
    else if st = 2 then ⟨4176, "low"⟩
    else if st = 3 then ⟨4184, "empty"⟩
    else ⟨4128, "unknown"⟩
  MCE_BATTERY_LEVEL_UNKNOWN := -1

/-- A sample state of `mce-common.c`: nothing broadcast yet on the string
channels, battery level 100 already broadcast. -/
def sampleCommon : CommonState where
  usb_cable_state := -1
  charger_state := charger_state_t.CHARGER_STATE_UNDEF
  battery_status := -1
  battery_level := 100
  usb_cable_state_last := 0
  charger_state_last := 0
  battery_status_last := 0
  battery_level_last := 100
  common_dbus_initial_id := 0

/-- A sample state of `powersavemode.c`: the values of a freshly loaded module
with threshold 20 and both settings off. -/
def samplePsm : PsmState where
  battery_level := 100
  charger_state := charger_state_t.CHARGER_STATE_UNDEF
  power_saving_mode := FALSE
  power_saving_mode_setting_id := 1
  force_psm := FALSE
  force_psm_setting_id := 2
  psm_threshold := 20
  psm_threshold_setting_id := 3
  active_power_saving_mode := FALSE
  thermal_state := thermal_state_t.THERMAL_STATE_UNDEF

/-- Scenario 4 of the specification: battery 90, threshold 20, power saving
not enabled, forced, charger on, thermal state ok, decision so far `FALSE`. -/
def scenario4 : PsmState :=
  { samplePsm with
    battery_level := 90
    psm_threshold := 20
    power_saving_mode := FALSE
    force_psm := TRUE
    charger_state := charger_state_t.CHARGER_STATE_ON
    thermal_state := thermal_state_t.THERMAL_STATE_OK }

/-- The argument carried by a sent message. -/
def Sent.arg : Sent → Arg
  | Sent.signal _ a => a
  | Sent.reply _ a => a

/-- A renderer returns string constants, one per distinct text: two results
are at the same address exactly when they have the same characters. -/
def StringConstants {α : Type} (r : α → CStr) : Prop :=
  ∀ a b : α, (r a).addr = (r b).addr ↔ (r a).text = (r b).text

/-! ## Event sequences of the power saving mode module -/

/-- The calls `powersavemode.c` receives from the rest of the daemon: the
three datapipe triggers, the settings notifier and the D-Bus query. -/
inductive PsmEvent where
  | battery_level (data : Int)
  | charger_state (data : charger_state_t)
  | thermal_state (data : thermal_state_t)
  | setting (id : Nat) (gcv : Option GConfValue)
  | get_psm_state (msg : MethodCall)
  deriving DecidableEq, Repr

/-- One call into the module: the state afterwards and what the call did to
the outside. -/
def psm_step (append_ok send_ok : Bool) (s : PsmState) : PsmEvent → PsmState × List PsmOut
  | PsmEvent.battery_level data => battery_level_trigger s data append_ok send_ok
  | PsmEvent.charger_state data => charger_state_trigger s data append_ok send_ok
  | PsmEvent.thermal_state data => thermal_state_trigger s data append_ok send_ok
  | PsmEvent.setting id gcv => psm_setting_cb s id gcv append_ok send_ok
  | PsmEvent.get_psm_state msg =>
    (s, (psm_state_get_dbus_cb s msg append_ok send_ok).1.map PsmOut.dbus)

/-- A sequence of calls into the module, one after the other. -/
def psm_run (append_ok send_ok : Bool) (s : PsmState) : List PsmEvent → PsmState × List PsmOut
  | [] => (s, [])
  | e :: es =>
    let r := psm_step append_ok send_ok s e
    let rest := psm_run append_ok send_ok r.1 es
    (rest.1, r.2 ++ rest.2)

/-- The D-Bus signal an output of the module is, if it is one. -/
def PsmOut.signal? : PsmOut → Option Sent
  | PsmOut.dbus (Sent.signal n a) => some (Sent.signal n a)
  | _ => none

/-- The value carried by an output of the module that is a PSM state signal. -/
def PsmOut.psm_value? : PsmOut → Option Int
  | PsmOut.dbus (Sent.signal SignalName.MCE_PSM_STATE_SIG (Arg.boolean v)) => some v
  | _ => none

/-- The D-Bus signals among the outputs of the module, in order. -/
def psm_signals (out : List PsmOut) : List Sent :=
  out.filterMap PsmOut.signal?

/-- The values carried by the PSM state signals among the outputs, in order. -/
def psm_signal_values (out : List PsmOut) : List Int :=
  out.filterMap PsmOut.psm_value?

/-- The PSM state signal carrying `v`. -/
def psm_state_signal (v : Int) : Sent :=
  Sent.signal SignalName.MCE_PSM_STATE_SIG (Arg.boolean v)

/-- A list of values reads `expect`, then the other truth value, then
`expect` again, and so on. -/
def alternates : Int → List Int → Prop
  | _, [] => True
  | expect, v :: vs => v = expect ∧ alternates (1 - expect) vs

/-- The effect of one call on the stored decision and on the signals: either
the decision stays and no signal is sent, or the decision changes to a truth
value and exactly one PSM state signal carrying it is sent. -/
def PsmStepShape (s : PsmState) (r : PsmState × List PsmOut) : Prop :=
  (r.1.active_power_saving_mode = s.active_power_saving_mode ∧
    psm_signals r.2 = [] ∧ psm_signal_values r.2 = []) ∨
  (r.1.active_power_saving_mode ≠ s.active_power_saving_mode ∧
    (r.1.active_power_saving_mode = TRUE ∨ r.1.active_power_saving_mode = FALSE) ∧
    psm_signals r.2 = [psm_state_signal r.1.active_power_saving_mode] ∧
    psm_signal_values r.2 = [r.1.active_power_saving_mode])

/-- The relation kept between the stored decision and the outputs so far: all
signals sent are PSM state signals, their values alternate starting with
`TRUE`, and the stored decision is `FALSE` after an even number of signals and
`TRUE` after an odd number. -/
def PsmInv (s : PsmState) (h : List PsmOut) : Prop :=
  psm_signals h = (psm_signal_values h).map psm_state_signal ∧
  alternates TRUE (psm_signal_values h) ∧
  s.active_power_saving_mode =
    if (psm_signal_values h).length % 2 = 0 then FALSE else TRUE

/-! ## Startup timer and event sequences of mce-common.c -/

/-- Source function `common_dbus_initial_cb`: the four broadcast attempts in
the order of the source, then the timer id is cleared (the function returns
`FALSE`, so the timer does not repeat).  Each attempt has its own append
outcome. -/
def common_dbus_initial_cb (env : CommonEnv) (s : CommonState)
    (ok1 ok2 ok3 ok4 : Bool) : CommonState × List Sent :=
  let r1 := common_dbus_send_usb_cable_state env s none ok1
  let r2 := common_dbus_send_charger_state env r1.1 none ok2
  let r3 := common_dbus_send_battery_status env r2.1 none ok3
  let r4 := common_dbus_send_battery_level env r3.1 none ok4
  ({ r4.1 with common_dbus_initial_id := 0 }, r1.2 ++ r2.2 ++ r3.2 ++ r4.2)

/-- The static variables of `mce-common.c` at process start.  The values of
`USB_CABLE_UNDEF`, `BATTERY_STATUS_UNDEF` and `BATTERY_LEVEL_INITIAL` are
defined outside the sources at hand and are parameters. -/
def common_initial_state (env : CommonEnv)
    (USB_CABLE_UNDEF BATTERY_STATUS_UNDEF BATTERY_LEVEL_INITIAL : Int) : CommonState where
  usb_cable_state := USB_CABLE_UNDEF
  charger_state := charger_state_t.CHARGER_STATE_UNDEF
  battery_status := BATTERY_STATUS_UNDEF
  battery_level := BATTERY_LEVEL_INITIAL
  usb_cable_state_last := 0
  charger_state_last := 0
  battery_status_last := 0
  battery_level_last := env.MCE_BATTERY_LEVEL_UNKNOWN - 1
  common_dbus_initial_id := 0

/-- The calls `mce-common.c` receives from the rest of the daemon: the four
datapipe callbacks, the startup timer, and the four D-Bus queries. -/
inductive CommonEvent where
  | usb_cable_state (data : usb_cable_state_t)
  | charger_state (data : charger_state_t)
  | battery_status (data : battery_status_t)
  | battery_level (data : Int)
  | initial_timer
  | get_usb_cable_state (req : MethodCall)
  | get_charger_state (req : MethodCall)
  | get_battery_status (req : MethodCall)
  | get_battery_level (req : MethodCall)
  deriving DecidableEq, Repr

/-- One call into `mce-common.c`; `append_ok` is the outcome of every
`dbus_message_append_args` during the call. -/
def common_step (env : CommonEnv) (append_ok : Bool) (s : CommonState) :
    CommonEvent → CommonState × List Sent
  | CommonEvent.usb_cable_state data =>
    common_datapipe_usb_cable_state_cb env s data append_ok
  | CommonEvent.charger_state data =>
    common_datapipe_charger_state_cb env s data append_ok
  | CommonEvent.battery_status data =>
    common_datapipe_battery_status_cb env s data append_ok
  | CommonEvent.battery_level data =>
    common_datapipe_battery_level_cb env s data append_ok
  | CommonEvent.initial_timer =>
    common_dbus_initial_cb env s append_ok append_ok append_ok append_ok
  | CommonEvent.get_usb_cable_state req =>
    common_dbus_get_usb_cable_state_cb env s req append_ok
  | CommonEvent.get_charger_state req =>
    common_dbus_get_charger_state_cb env s req append_ok
  | CommonEvent.get_battery_status req =>
    common_dbus_get_battery_status_cb env s req append_ok
  | CommonEvent.get_battery_level req =>
    common_dbus_get_battery_level_cb env s req append_ok

/-- A sequence of calls into `mce-common.c`, one after the other. -/
def common_run (env : CommonEnv) (append_ok : Bool) (s : CommonState) :
    List CommonEvent → CommonState × List Sent
  | [] => (s, [])
  | e :: es =>
    let r := common_step env append_ok s e
    let rest := common_run env append_ok r.1 es
    (rest.1, r.2 ++ rest.2)

/-- The argument of a message that is the signal `name`. -/
def Sent.signalArg? (name : SignalName) : Sent → Option Arg
  | Sent.signal n a => if n = name then some a else none
  | Sent.reply _ _ => none

/-- The arguments carried by the signals `name` among the messages sent, in
order. -/
def signal_args (name : SignalName) (out : List Sent) : List Arg :=
  out.filterMap (Sent.signalArg? name)

/-- The relation kept on the cable channel between the state and the messages
sent so far: either no signal was sent and `last` is NULL, or the most recent
signal carries the string of the cached state and `last` points at it. -/
def UsbCableInv (env : CommonEnv) (s : CommonState) (h : List Sent) : Prop :=
  (signal_args SignalName.MCE_USB_CABLE_STATE_SIG h = [] ∧ s.usb_cable_state_last = 0) ∨
  ((signal_args SignalName.MCE_USB_CABLE_STATE_SIG h).getLast? =
      some (Arg.string (env.usb_cable_state_to_dbus s.usb_cable_state).text) ∧
    s.usb_cable_state_last = (env.usb_cable_state_to_dbus s.usb_cable_state).addr)

/-- The relation kept on the charger channel, as for the cable channel. -/
def ChargerInv (env : CommonEnv) (s : CommonState) (h : List Sent) : Prop :=
  (signal_args SignalName.MCE_CHARGER_STATE_SIG h = [] ∧ s.charger_state_last = 0) ∨
  ((signal_args SignalName.MCE_CHARGER_STATE_SIG h).getLast? =
      some (Arg.string (env.charger_state_to_dbus s.charger_state).text) ∧
    s.charger_state_last = (env.charger_state_to_dbus s.charger_state).addr)

/-- The relation kept on the battery status channel, as for the cable
channel. -/
def BatteryStatusInv (env : CommonEnv) (s : CommonState) (h : List Sent) : Prop :=
  (signal_args SignalName.MCE_BATTERY_STATUS_SIG h = [] ∧ s.battery_status_last = 0) ∨
  ((signal_args SignalName.MCE_BATTERY_STATUS_SIG h).getLast? =
      some (Arg.string (env.battery_status_to_dbus s.battery_status).text) ∧
    s.battery_status_last = (env.battery_status_to_dbus s.battery_status).addr)

/-- The relation kept on the battery level channel: either no signal was sent
and `last` is `MCE_BATTERY_LEVEL_UNKNOWN - 1`, or the most recent signal
carries the normalised cached level and `last` holds it. -/
def BatteryLevelInv (env : CommonEnv) (s : CommonState) (h : List Sent) : Prop :=
  (signal_args SignalName.MCE_BATTERY_LEVEL_SIG h = [] ∧
    s.battery_level_last = env.MCE_BATTERY_LEVEL_UNKNOWN - 1) ∨
  ((signal_args SignalName.MCE_BATTERY_LEVEL_SIG h).getLast? =
      some (Arg.int32 (battery_level_value env s.battery_level)) ∧
    s.battery_level_last = battery_level_value env s.battery_level)

/-- The four channel relations together. -/
def CommonInv (env : CommonEnv) (s : CommonState) (h : List Sent) : Prop :=
  UsbCableInv env s h ∧ ChargerInv env s h ∧ BatteryStatusInv env s h ∧
  BatteryLevelInv env s h

/-! ## Registrations made by the two files at init and undone at teardown

The registries themselves (datapipe trigger lists, settings notifiers, D-Bus
handler table, pending timers) are kept by parts of the daemon that are not
among the sources at hand; they are modelled from the specification. -/

/-- The datapipes the two files attach to, and those of the rest of the
daemon. -/
inductive Datapipe where
  | usb_cable_state_pipe
  | charger_state_pipe
  | battery_status_pipe
  | battery_level_pipe
  | thermal_state_pipe
  | power_saving_mode_active_pipe
  | other (n : Nat)
  deriving DecidableEq, Repr

/-- The functions the two files register, and those of other owners. -/
inductive Callback where
  | battery_level_trigger
  | charger_state_trigger
  | thermal_state_trigger
  | psm_setting_cb
  | common_datapipe_usb_cable_state_cb
  | common_datapipe_charger_state_cb
  | common_datapipe_battery_status_cb
  | common_datapipe_battery_level_cb
  | common_dbus_initial_cb
  | other (n : Nat)
  deriving DecidableEq, Repr

/-- The setting keys `powersavemode.c` follows, and those of other owners. -/
inductive SettingKey where
  | MCE_SETTING_EM_ENABLE_PSM
  | MCE_SETTING_EM_FORCED_PSM
  | MCE_SETTING_EM_PSM_THRESHOLD
  | other (n : Nat)
  deriving DecidableEq, Repr

/-- The D-Bus handler arrays of the two files, and those of other owners.  A
registered handler is an entry of an array: the array and the index. -/
inductive HandlerArray where
  | psm_dbus_handlers
  | common_dbus_handlers
  | other (n : Nat)
  deriving DecidableEq, Repr

/-- Modelled from the spec: the registration state of the daemon, which is
kept outside the sources at hand: the observers of the state slots with their
slot ("Observer registration"), the settings notifiers with their registration
handle and key, the IPC handlers, and the pending single-shot deferred
callbacks with their id. -/
structure Registrations where
  output_triggers : List (Datapipe × Callback)
  setting_notifiers : List (Nat × SettingKey × Callback)
  dbus_handlers : List (HandlerArray × Nat)
  timers : List (Nat × Callback)
  deriving DecidableEq, Repr

/-- Modelled from the spec: removal of one registration equal to `x`, the
first one, and of nothing when there is none ("removes exactly one observer;
idempotent if the token is already removed"). -/
def remove_one {α : Type} [DecidableEq α] (l : List α) (x : α) : List α :=
  l.erase x

/-- Modelled from the spec: a handle not in use, for a new registration ("an
opaque token"); it is never 0. -/
def fresh_id (ids : List Nat) : Nat :=
  ids.foldr max 0 + 1

/-- Modelled from the spec: `datapipe_add_output_trigger`, missing from the
sources at hand, after `subscribe`: "appends an observer". -/
def datapipe_add_output_trigger (reg : Registrations) (pipe : Datapipe)
    (cb : Callback) : Registrations :=
  { reg with output_triggers := reg.output_triggers ++ [(pipe, cb)] }

/-- Modelled from the spec: `datapipe_remove_output_trigger`, missing from the
sources at hand, after `unsubscribe`: "removes exactly one observer;
idempotent if the token is already removed". -/
def datapipe_remove_output_trigger (reg : Registrations) (pipe : Datapipe)
    (cb : Callback) : Registrations :=
  { reg with output_triggers := remove_one reg.output_triggers (pipe, cb) }

/-- Modelled from the spec: `datapipe_bindings_init`, missing from the sources
at hand, after `attach`: subscribes every entry of the owner's binding list,
in order.  Every datapipe of the model is a declared slot, so no subscription
fails. -/
def datapipe_bindings_init (reg : Registrations)
    (handlers : List (Datapipe × Callback)) : Registrations :=
  handlers.foldl (fun r b => datapipe_add_output_trigger r b.1 b.2) reg

/-- Modelled from the spec: `datapipe_bindings_quit`, missing from the sources
at hand, after `detach`: unsubscribes every entry of the owner's binding
list. -/
def datapipe_bindings_quit (reg : Registrations)
    (handlers : List (Datapipe × Callback)) : Registrations :=
  handlers.foldl (fun r b => datapipe_remove_output_trigger r b.1 b.2) reg

/-- Modelled from the spec: `mce_setting_notifier_add`, missing from the
sources at hand: installs a notifier for the key and returns its registration
handle ("a notifier callback keyed by a registration handle"). -/
def mce_setting_notifier_add (reg : Registrations) (key : SettingKey)
    (cb : Callback) : Registrations × Nat :=
  let id := fresh_id (reg.setting_notifiers.map Prod.fst)
  ({ reg with setting_notifiers := reg.setting_notifiers ++ [(id, key, cb)] }, id)

/-- Modelled from the spec: `mce_setting_notifier_remove`, missing from the
sources at hand: removes the notifier registered under the handle; the handle
0 stands for no registration. -/
def mce_setting_notifier_remove (reg : Registrations) (id : Nat) : Registrations :=
  { reg with setting_notifiers :=
      if id = 0 then reg.setting_notifiers
      else reg.setting_notifiers.filter (fun e => e.1 ≠ id) }

/-- Modelled from the spec: `mce_setting_get_bool` and `mce_setting_get_int`,
missing from the sources at hand: "absence of a stored value is not an error —
the compiled-in default applies", so the variable keeps its value when the key
is unset. -/
def mce_setting_get (stored : Option Int) (var : Int) : Int :=
  stored.getD var

/-- Modelled from the spec: `mce_dbus_handler_register_array`, missing from the
sources at hand: installs the entries of the array before the sentinel, `n` of
them, in order. -/
def mce_dbus_handler_register_array (reg : Registrations) (arr : HandlerArray)
    (n : Nat) : Registrations :=
  { reg with dbus_handlers := reg.dbus_handlers ++ (List.range n).map (fun i => (arr, i)) }

/-- Modelled from the spec: `mce_dbus_handler_unregister_array`, missing from
the sources at hand: "unregisters every IPC handler recorded for" the array,
one registration for each entry. -/
def mce_dbus_handler_unregister_array (reg : Registrations) (arr : HandlerArray)
    (n : Nat) : Registrations :=
  { reg with dbus_handlers :=
      ((List.range n).map (fun i => (arr, i))).foldl remove_one reg.dbus_handlers }

/-- Modelled from the spec: `g_timeout_add` of the event loop library: queues
"a single-shot deferred callback" and returns its id, which is not 0. -/
def g_timeout_add (reg : Registrations) (cb : Callback) : Registrations × Nat :=
  let id := fresh_id (reg.timers.map Prod.fst)
  ({ reg with timers := reg.timers ++ [(id, cb)] }, id)

/-- Modelled from the spec: `g_source_remove` of the event loop library:
cancels the pending callback with the id. -/
def g_source_remove (reg : Registrations) (id : Nat) : Registrations :=
  { reg with timers := reg.timers.filter (fun e => e.1 ≠ id) }

/-- The stored settings read at module init: the value of each of the three
keys, `none` for an unset key. -/
structure SettingsStore where
  enable_psm : Option Int
  forced_psm : Option Int
  psm_threshold : Option Int
  deriving DecidableEq, Repr

/-- Source function `mce_psm_init_dbus`; `psm_dbus_handlers` has two entries
before its sentinel. -/
def mce_psm_init_dbus (reg : Registrations) : Registrations :=
  mce_dbus_handler_register_array reg HandlerArray.psm_dbus_handlers 2

/-- Source function `mce_psm_quit_dbus`. -/
def mce_psm_quit_dbus (reg : Registrations) : Registrations :=
  mce_dbus_handler_unregister_array reg HandlerArray.psm_dbus_handlers 2

/-- Source function `g_module_check_init` of `powersavemode.c`. -/
def g_module_check_init (s : PsmState) (reg : Registrations) (store : SettingsStore) :
    PsmState × Registrations :=
  let reg := datapipe_add_output_trigger reg Datapipe.battery_level_pipe
    Callback.battery_level_trigger
  let reg := datapipe_add_output_trigger reg Datapipe.charger_state_pipe
    Callback.charger_state_trigger
  let reg := datapipe_add_output_trigger reg Datapipe.thermal_state_pipe
    Callback.thermal_state_trigger
  let a1 := mce_setting_notifier_add reg SettingKey.MCE_SETTING_EM_ENABLE_PSM
    Callback.psm_setting_cb
  let s := { s with power_saving_mode_setting_id := a1.2 }
  let s := { s with power_saving_mode := mce_setting_get store.enable_psm s.power_saving_mode }
  let a2 := mce_setting_notifier_add a1.1 SettingKey.MCE_SETTING_EM_FORCED_PSM
    Callback.psm_setting_cb
  let s := { s with force_psm_setting_id := a2.2 }
  let s := { s with force_psm := mce_setting_get store.forced_psm s.force_psm }
  let a3 := mce_setting_notifier_add a2.1 SettingKey.MCE_SETTING_EM_PSM_THRESHOLD
    Callback.psm_setting_cb
  let s := { s with psm_threshold_setting_id := a3.2 }
  let s := { s with psm_threshold := mce_setting_get store.psm_threshold s.psm_threshold }
  (s, mce_psm_init_dbus a3.1)

/-- Source function `g_module_unload` of `powersavemode.c`. -/
def g_module_unload (s : PsmState) (reg : Registrations) : PsmState × Registrations :=
  let reg := mce_setting_notifier_remove reg s.power_saving_mode_setting_id
  let s := { s with power_saving_mode_setting_id := 0 }
  let reg := mce_setting_notifier_remove reg s.force_psm_setting_id
  let s := { s with force_psm_setting_id := 0 }
  let reg := mce_setting_notifier_remove reg s.psm_threshold_setting_id
  let s := { s with psm_threshold_setting_id := 0 }
  let reg := mce_psm_quit_dbus reg
  let reg := datapipe_remove_output_trigger reg Datapipe.thermal_state_pipe
    Callback.thermal_state_trigger
  let reg := datapipe_remove_output_trigger reg Datapipe.battery_level_pipe
    Callback.battery_level_trigger
  let reg := datapipe_remove_output_trigger reg Datapipe.charger_state_pipe
    Callback.charger_state_trigger
  (s, reg)

/-- The array `common_datapipe_handlers` before its sentinel. -/
def common_datapipe_handlers : List (Datapipe × Callback) :=
  [(Datapipe.usb_cable_state_pipe, Callback.common_datapipe_usb_cable_state_cb),
   (Datapipe.charger_state_pipe, Callback.common_datapipe_charger_state_cb),
   (Datapipe.battery_status_pipe, Callback.common_datapipe_battery_status_cb),
   (Datapipe.battery_level_pipe, Callback.common_datapipe_battery_level_cb)]

/-- Source function `common_datapipe_init`. -/
def common_datapipe_init (reg : Registrations) : Registrations :=
  datapipe_bindings_init reg common_datapipe_handlers

/-- Source function `common_datapipe_quit`. -/
def common_datapipe_quit (reg : Registrations) : Registrations :=
  datapipe_bindings_quit reg common_datapipe_handlers

/-- Source function `common_dbus_init`; `common_dbus_handlers` has eight
entries before its sentinel. -/
def common_dbus_init (s : CommonState) (reg : Registrations) :
    CommonState × Registrations :=
  let reg := mce_dbus_handler_register_array reg HandlerArray.common_dbus_handlers 8
  if s.common_dbus_initial_id = 0 then
    let t := g_timeout_add reg Callback.common_dbus_initial_cb
    ({ s with common_dbus_initial_id := t.2 }, t.1)
  else
    (s, reg)

/-- Source function `common_dbus_quit`. -/
def common_dbus_quit (s : CommonState) (reg : Registrations) :
    CommonState × Registrations :=
  let r : CommonState × Registrations :=
    if s.common_dbus_initial_id ≠ 0 then
      ({ s with common_dbus_initial_id := 0 }, g_source_remove reg s.common_dbus_initial_id)
    else
      (s, reg)
  (r.1, mce_dbus_handler_unregister_array r.2 HandlerArray.common_dbus_handlers 8)

/-- Source function `mce_common_init` (it returns `true`). -/
def mce_common_init (s : CommonState) (reg : Registrations) :
    CommonState × Registrations :=
  common_dbus_init s (common_datapipe_init reg)

/-- Source function `mce_common_quit`. -/
def mce_common_quit (s : CommonState) (reg : Registrations) :
    CommonState × Registrations :=
  let r := common_dbus_quit s reg
  (r.1, common_datapipe_quit r.2)

/-- Modelled from the spec: the event loop running the pending startup timer
of `mce-common.c`: the "single-shot deferred callback" leaves the pending set
and `common_dbus_initial_cb` runs. -/
def common_initial_timer_fires (env : CommonEnv) (s : CommonState) (reg : Registrations)
    (ok1 ok2 ok3 ok4 : Bool) : (CommonState × Registrations) × List Sent :=
  let r := common_dbus_initial_cb env s ok1 ok2 ok3 ok4
  ((r.1, g_source_remove reg s.common_dbus_initial_id), r.2)

/-- A sample registration state with registrations of other owners, one of
them on a datapipe that `powersavemode.c` also attaches to. -/
def sampleRegistrations : Registrations where
  output_triggers := [(Datapipe.battery_level_pipe, Callback.other 1),
                      (Datapipe.other 7, Callback.other 2)]
  setting_notifiers := [(4, SettingKey.other 1, Callback.other 3)]
  dbus_handlers := [(HandlerArray.other 1, 0), (HandlerArray.other 1, 1)]
  timers := [(9, Callback.other 4)]

/-- A sequence of calls into the power saving mode module in which each call
comes with the outcome of its own argument append. -/
def psm_run_outcomes (send_ok : Bool) (s : PsmState) :
    List (Bool × PsmEvent) → PsmState × List PsmOut
  | [] => (s, [])
  | e :: es =>
    let r := psm_step e.1 send_ok s e.2
    let rest := psm_run_outcomes send_ok r.1 es
    (rest.1, r.2 ++ rest.2)

/-- A sample state of `powersavemode.c` with power saving enabled, battery
level 10 against threshold 20, and the decision so far `FALSE`. -/
def psm_initial_sample : PsmState :=
  { samplePsm with battery_level := 10, power_saving_mode := TRUE }

/-! ## Theorems: power saving mode decision -/

/-- After `update_power_saving_mode` the stored decision is the newly computed
one, whether or not it had to be changed. -/
theorem update_power_saving_mode_active (s : PsmState) (append_ok send_ok : Bool) :
    (update_power_saving_mode s append_ok send_ok).1.active_power_saving_mode
      = new_power_saving_mode s := by
  unfold update_power_saving_mode
  simp only []
  split
  · rfl
  · rename_i h
    exact not_not.mp h

/-- C1: for every battery level, threshold, enabled flag, forced flag, charger
state and thermal state (and every previous decision, setting ids and D-Bus
outcome), both the value computed for `new_power_saving_mode` and the value of
`active_power_saving_mode` after `update_power_saving_mode` equal
((forced OR (enabled AND battery_level <= threshold)) AND charger_state != on)
OR (thermal_state == overheated); the comparison is `<=`, so a level equal to
the threshold counts as at or below it. -/
theorem update_power_saving_mode_decision
    (battery_level psm_threshold : Int) (enabled forced : Bool)
    (charger_state : charger_state_t) (thermal_state : thermal_state_t)
    (active : Int) (id1 id2 id3 : Nat) (append_ok send_ok : Bool) :
    let s : PsmState :=
      { battery_level := battery_level, charger_state := charger_state,
        power_saving_mode := gboolean_of enabled, power_saving_mode_setting_id := id1,
        force_psm := gboolean_of forced, force_psm_setting_id := id2,
        psm_threshold := psm_threshold, psm_threshold_setting_id := id3,
        active_power_saving_mode := active, thermal_state := thermal_state }
    let rule : Bool :=
      ((forced || (enabled && decide (battery_level ≤ psm_threshold))) &&
        decide (charger_state ≠ charger_state_t.CHARGER_STATE_ON)) ||
      decide (thermal_state = thermal_state_t.THERMAL_STATE_OVERHEATED)
    new_power_saving_mode s = gboolean_of rule ∧
    (update_power_saving_mode s append_ok send_ok).1.active_power_saving_mode
      = gboolean_of rule ∧
    (battery_level = psm_threshold →
      new_power_saving_mode s = gboolean_of
        (((forced || enabled) &&
          decide (charger_state ≠ charger_state_t.CHARGER_STATE_ON)) ||
         decide (thermal_state = thermal_state_t.THERMAL_STATE_OVERHEATED))) := by
  intro s rule
  have h1 : new_power_saving_mode s = gboolean_of rule := by
    cases enabled <;> cases forced <;> cases charger_state <;> cases thermal_state <;>
      by_cases hb : battery_level ≤ psm_threshold <;>
      simp [new_power_saving_mode, gboolean_of, TRUE, FALSE, s, rule, hb]
  refine ⟨h1, ?_, ?_⟩
  · rw [update_power_saving_mode_active, h1]
  · intro hb
    rw [h1]
    simp [rule, hb]

/-- C2, counterexample: in scenario 4 (battery 90, threshold 20, not enabled,
forced, charger on, thermal ok) `update_power_saving_mode` does not yield
active = TRUE. -/
theorem scenario4_not_active :
    ¬ ((update_power_saving_mode scenario4 true true).1.active_power_saving_mode
        = TRUE) := by
  rw [update_power_saving_mode_active]
  simp [new_power_saving_mode, scenario4, samplePsm, TRUE, FALSE]

/-- C2, amended: with battery 90, threshold 20, enabled false, forced true,
charger on and thermal ok, `update_power_saving_mode` yields active = FALSE
whatever the decision was before; more generally, while the charger is on and
the device is not overheated the decision is FALSE whatever the forced flag
is. -/
theorem forced_does_not_override_charger :
    (∀ (active : Int) (id1 id2 id3 : Nat) (append_ok send_ok : Bool),
      (update_power_saving_mode
        { battery_level := 90, charger_state := charger_state_t.CHARGER_STATE_ON,
          power_saving_mode := FALSE, power_saving_mode_setting_id := id1,
          force_psm := TRUE, force_psm_setting_id := id2,
          psm_threshold := 20, psm_threshold_setting_id := id3,
          active_power_saving_mode := active,
          thermal_state := thermal_state_t.THERMAL_STATE_OK }
        append_ok send_ok).1.active_power_saving_mode = FALSE) ∧
    (∀ (s : PsmState) (append_ok send_ok : Bool),
      s.charger_state = charger_state_t.CHARGER_STATE_ON →
      s.thermal_state ≠ thermal_state_t.THERMAL_STATE_OVERHEATED →
      (update_power_saving_mode s append_ok send_ok).1.active_power_saving_mode
        = FALSE) := by
  constructor
  · intro active id1 id2 id3 append_ok send_ok
    rw [update_power_saving_mode_active]
    simp [new_power_saving_mode, TRUE, FALSE]
  · intro s append_ok send_ok hc ht
    rw [update_power_saving_mode_active]
    simp [new_power_saving_mode, hc, ht]

/-- C3: whenever the thermal state is overheated, `update_power_saving_mode`
yields active = TRUE, for every battery level, threshold, enabled flag, forced
flag, charger state and previous decision; in particular with the charger on
and battery level 90. -/
theorem overheated_activates (s : PsmState) (append_ok send_ok : Bool) :
    new_power_saving_mode
      { s with thermal_state := thermal_state_t.THERMAL_STATE_OVERHEATED } = TRUE ∧
    (update_power_saving_mode
      { s with thermal_state := thermal_state_t.THERMAL_STATE_OVERHEATED }
      append_ok send_ok).1.active_power_saving_mode = TRUE ∧
    (thermal_state_trigger s thermal_state_t.THERMAL_STATE_OVERHEATED
      append_ok send_ok).1.active_power_saving_mode = TRUE ∧
    (update_power_saving_mode
      { s with thermal_state := thermal_state_t.THERMAL_STATE_OVERHEATED
               charger_state := charger_state_t.CHARGER_STATE_ON
               battery_level := 90 }
      append_ok send_ok).1.active_power_saving_mode = TRUE := by
  refine ⟨?_, ?_, ?_, ?_⟩
  · simp [new_power_saving_mode]
  · rw [update_power_saving_mode_active]
    simp [new_power_saving_mode]
  · unfold thermal_state_trigger
    rw [update_power_saving_mode_active]
    simp [new_power_saving_mode]
  · rw [update_power_saving_mode_active]
    simp [new_power_saving_mode]

/-! ## Theorems: the four broadcast channels -/

/-- What `common_dbus_send_usb_cable_state(NULL)` does, in one expression. -/
theorem send_usb_cable_state_none (env : CommonEnv) (s : CommonState) (ok : Bool) :
    common_dbus_send_usb_cable_state env s none ok =
      if s.usb_cable_state_last = (env.usb_cable_state_to_dbus s.usb_cable_state).addr then
        (s, [])
      else
        ({ s with usb_cable_state_last :=
                    (env.usb_cable_state_to_dbus s.usb_cable_state).addr },
         if ok then
           [Sent.signal SignalName.MCE_USB_CABLE_STATE_SIG
             (Arg.string (env.usb_cable_state_to_dbus s.usb_cable_state).text)]
         else []) := by
  unfold common_dbus_send_usb_cable_state
  cases ok <;> simp only [] <;> split_ifs <;> simp_all

/-- What `common_dbus_send_charger_state(NULL)` does, in one expression. -/
theorem send_charger_state_none (env : CommonEnv) (s : CommonState) (ok : Bool) :
    common_dbus_send_charger_state env s none ok =
      if s.charger_state_last = (env.charger_state_to_dbus s.charger_state).addr then
        (s, [])
      else
        ({ s with charger_state_last :=
                    (env.charger_state_to_dbus s.charger_state).addr },
         if ok then
           [Sent.signal SignalName.MCE_CHARGER_STATE_SIG
             (Arg.string (env.charger_state_to_dbus s.charger_state).text)]
         else []) := by
  unfold common_dbus_send_charger_state
  cases ok <;> simp only [] <;> split_ifs <;> simp_all

/-- What `common_dbus_send_battery_status(NULL)` does, in one expression. -/
theorem send_battery_status_none (env : CommonEnv) (s : CommonState) (ok : Bool) :
    common_dbus_send_battery_status env s none ok =
      if s.battery_status_last = (env.battery_status_to_dbus s.battery_status).addr then
        (s, [])
      else
        ({ s with battery_status_last :=
                    (env.battery_status_to_dbus s.battery_status).addr },
         if ok then
           [Sent.signal SignalName.MCE_BATTERY_STATUS_SIG
             (Arg.string (env.battery_status_to_dbus s.battery_status).text)]
         else []) := by
  unfold common_dbus_send_battery_status
  cases ok <;> simp only [] <;> split_ifs <;> simp_all

/-- What `common_dbus_send_battery_level(NULL)` does, in one expression. -/
theorem send_battery_level_none (env : CommonEnv) (s : CommonState) (ok : Bool) :
    common_dbus_send_battery_level env s none ok =
      if s.battery_level_last = battery_level_value env s.battery_level then
        (s, [])
      else
        ({ s with battery_level_last := battery_level_value env s.battery_level },
         if ok then
           [Sent.signal SignalName.MCE_BATTERY_LEVEL_SIG
             (Arg.int32 (battery_level_value env s.battery_level))]
         else []) := by
  unfold common_dbus_send_battery_level
  cases ok <;> simp only [] <;> split_ifs <;> simp_all

/-- What `common_dbus_send_usb_cable_state(req)` does for a method call. -/
theorem send_usb_cable_state_some (env : CommonEnv) (s : CommonState)
    (r : MethodCall) (ok : Bool) :
    common_dbus_send_usb_cable_state env s (some r) ok =
      (s, if ok then
            [Sent.reply r (Arg.string (env.usb_cable_state_to_dbus s.usb_cable_state).text)]
          else []) := by
  unfold common_dbus_send_usb_cable_state
  cases ok <;> simp

/-- What `common_dbus_send_charger_state(req)` does for a method call. -/
theorem send_charger_state_some (env : CommonEnv) (s : CommonState)
    (r : MethodCall) (ok : Bool) :
    common_dbus_send_charger_state env s (some r) ok =
      (s, if ok then
            [Sent.reply r (Arg.string (env.charger_state_to_dbus s.charger_state).text)]
          else []) := by
  unfold common_dbus_send_charger_state
  cases ok <;> simp

/-- What `common_dbus_send_battery_status(req)` does for a method call. -/
theorem send_battery_status_some (env : CommonEnv) (s : CommonState)
    (r : MethodCall) (ok : Bool) :
    common_dbus_send_battery_status env s (some r) ok =
      (s, if ok then
            [Sent.reply r (Arg.string (env.battery_status_to_dbus s.battery_status).text)]
          else []) := by
  unfold common_dbus_send_battery_status
  cases ok <;> simp

/-- What `common_dbus_send_battery_level(req)` does for a method call. -/
theorem send_battery_level_some (env : CommonEnv) (s : CommonState)
    (r : MethodCall) (ok : Bool) :
    common_dbus_send_battery_level env s (some r) ok =
      (s, if ok then
            [Sent.reply r (Arg.int32 (battery_level_value env s.battery_level))]
          else []) := by
  unfold common_dbus_send_battery_level
  cases ok <;> simp

/-- C4: the value `common_dbus_send_battery_level` puts on the wire is
`MCE_BATTERY_LEVEL_UNKNOWN` for every level below 0, 100 for every level above
100 and the level itself for every level from 0 to 100; the levels -5, 0, 50,
100, 150 give unknown, 0, 50, 100, 100; a query reply carries this value, an
emitted signal carries this value, and no message the function sends carries
anything else. -/
theorem battery_level_wire_value (env : CommonEnv) :
    (∀ l : Int, l < 0 → battery_level_value env l = env.MCE_BATTERY_LEVEL_UNKNOWN) ∧
    (∀ l : Int, 100 < l → battery_level_value env l = 100) ∧
    (∀ l : Int, 0 ≤ l → l ≤ 100 → battery_level_value env l = l) ∧
    (battery_level_value env (-5) = env.MCE_BATTERY_LEVEL_UNKNOWN ∧
      battery_level_value env 0 = 0 ∧
      battery_level_value env 50 = 50 ∧
      battery_level_value env 100 = 100 ∧
      battery_level_value env 150 = 100) ∧
    (∀ (s : CommonState) (req : MethodCall),
      (common_dbus_send_battery_level env s (some req) true).2 =
        [Sent.reply req (Arg.int32 (battery_level_value env s.battery_level))]) ∧
    (∀ s : CommonState,
      s.battery_level_last ≠ battery_level_value env s.battery_level →
      (common_dbus_send_battery_level env s none true).2 =
        [Sent.signal SignalName.MCE_BATTERY_LEVEL_SIG
          (Arg.int32 (battery_level_value env s.battery_level))]) ∧
    (∀ (s : CommonState) (req : Option MethodCall) (ok : Bool),
      ∀ m ∈ (common_dbus_send_battery_level env s req ok).2,
        m.arg = Arg.int32 (battery_level_value env s.battery_level)) := by
  refine ⟨?_, ?_, ?_, ?_, ?_, ?_, ?_⟩
  · intro l hl
    simp [battery_level_value, hl]
  · intro l hl
    have h0 : ¬ l < 0 := by omega
    simp [battery_level_value, h0, hl]
  · intro l h0 h100
    have h1 : ¬ l < 0 := by omega
    have h2 : ¬ l > 100 := by omega
    simp [battery_level_value, h1, h2]
  · simp [battery_level_value]
  · intro s req
    rw [send_battery_level_some]
    simp
  · intro s h
    rw [send_battery_level_none]
    simp [h]
  · intro s req ok m hm
    cases req with
    | none =>
      rw [send_battery_level_none] at hm
      split_ifs at hm <;> simp_all [Sent.arg]
    | some r =>
      rw [send_battery_level_some] at hm
      split_ifs at hm <;> simp_all [Sent.arg]

/-- C4, evaluated: with -1 as the unknown level, the replies to a query at the
cached levels -5, 0, 50, 100 and 150 carry -1, 0, 50, 100 and 100, and the
signal emitted at level 150 when 50 was broadcast last carries 100. -/
theorem battery_level_wire_value_sample :
    (common_dbus_send_battery_level sampleEnv
        { sampleCommon with battery_level := -5 } (some ⟨1, false⟩) true).2
      = [Sent.reply ⟨1, false⟩ (Arg.int32 (-1))] ∧
    (common_dbus_send_battery_level sampleEnv
        { sampleCommon with battery_level := 0 } (some ⟨1, false⟩) true).2
      = [Sent.reply ⟨1, false⟩ (Arg.int32 0)] ∧
    (common_dbus_send_battery_level sampleEnv
        { sampleCommon with battery_level := 50 } (some ⟨1, false⟩) true).2
      = [Sent.reply ⟨1, false⟩ (Arg.int32 50)] ∧
    (common_dbus_send_battery_level sampleEnv
        { sampleCommon with battery_level := 100 } (some ⟨1, false⟩) true).2
      = [Sent.reply ⟨1, false⟩ (Arg.int32 100)] ∧
    (common_dbus_send_battery_level sampleEnv
        { sampleCommon with battery_level := 150 } (some ⟨1, false⟩) true).2
      = [Sent.reply ⟨1, false⟩ (Arg.int32 100)] ∧
    (common_dbus_send_battery_level sampleEnv
        { sampleCommon with battery_level := 150, battery_level_last := 50 } none true).2
      = [Sent.signal SignalName.MCE_BATTERY_LEVEL_SIG (Arg.int32 100)] := by
  refine ⟨?_, by decide, by decide, by decide, by decide, ?_⟩
  · exact ((battery_level_wire_value sampleEnv).2.2.2.2.1 _ _).trans (by decide)
  · exact ((battery_level_wire_value sampleEnv).2.2.2.2.2.1 _ (by decide)).trans (by decide)

/-- C5: for each of the four channels, a broadcast attempt
`common_dbus_send_*(NULL)` whose argument append succeeds sends exactly one
signal, carrying the rendered value of the current cached state, when that
rendered value differs from the channel's `last`, and sends nothing when it is
equal; for the string channels the comparison is the pointer comparison of the
source, which for a renderer returning string constants and a `last` that
holds a rendered value is the comparison of the strings. -/
theorem broadcast_iff_differs (env : CommonEnv) (s : CommonState) :
    ((common_dbus_send_usb_cable_state env s none true).2 =
      if (env.usb_cable_state_to_dbus s.usb_cable_state).addr ≠ s.usb_cable_state_last then
        [Sent.signal SignalName.MCE_USB_CABLE_STATE_SIG
          (Arg.string (env.usb_cable_state_to_dbus s.usb_cable_state).text)]
      else []) ∧
    ((common_dbus_send_charger_state env s none true).2 =
      if (env.charger_state_to_dbus s.charger_state).addr ≠ s.charger_state_last then
        [Sent.signal SignalName.MCE_CHARGER_STATE_SIG
          (Arg.string (env.charger_state_to_dbus s.charger_state).text)]
      else []) ∧
    ((common_dbus_send_battery_status env s none true).2 =
      if (env.battery_status_to_dbus s.battery_status).addr ≠ s.battery_status_last then
        [Sent.signal SignalName.MCE_BATTERY_STATUS_SIG
          (Arg.string (env.battery_status_to_dbus s.battery_status).text)]
      else []) ∧
    ((common_dbus_send_battery_level env s none true).2 =
      if battery_level_value env s.battery_level ≠ s.battery_level_last then
        [Sent.signal SignalName.MCE_BATTERY_LEVEL_SIG
          (Arg.int32 (battery_level_value env s.battery_level))]
      else []) ∧
    (∀ x : usb_cable_state_t, StringConstants env.usb_cable_state_to_dbus →
      s.usb_cable_state_last = (env.usb_cable_state_to_dbus x).addr →
      ((common_dbus_send_usb_cable_state env s none true).2 ≠ [] ↔
        (env.usb_cable_state_to_dbus s.usb_cable_state).text
          ≠ (env.usb_cable_state_to_dbus x).text)) ∧
    (∀ x : charger_state_t, StringConstants env.charger_state_to_dbus →
      s.charger_state_last = (env.charger_state_to_dbus x).addr →
      ((common_dbus_send_charger_state env s none true).2 ≠ [] ↔
        (env.charger_state_to_dbus s.charger_state).text
          ≠ (env.charger_state_to_dbus x).text)) ∧
    (∀ x : battery_status_t, StringConstants env.battery_status_to_dbus →
      s.battery_status_last = (env.battery_status_to_dbus x).addr →
      ((common_dbus_send_battery_status env s none true).2 ≠ [] ↔
        (env.battery_status_to_dbus s.battery_status).text
          ≠ (env.battery_status_to_dbus x).text)) := by
  refine ⟨?_, ?_, ?_, ?_, ?_, ?_, ?_⟩
  · rw [send_usb_cable_state_none]
    split_ifs <;> simp_all
  · rw [send_charger_state_none]
    split_ifs <;> simp_all
  · rw [send_battery_status_none]
    split_ifs <;> simp_all
  · rw [send_battery_level_none]
    split_ifs <;> simp_all
  · intro x hr hl
    rw [send_usb_cable_state_none, hl]
    have hx := hr x s.usb_cable_state
    simp only [if_true]
    split_ifs with h
    · simpa using (hx.mp h).symm
    · simpa using fun h2 => h (hx.mpr h2.symm)
  · intro x hr hl
    rw [send_charger_state_none, hl]
    have hx := hr x s.charger_state
    simp only [if_true]
    split_ifs with h
    · simpa using (hx.mp h).symm
    · simpa using fun h2 => h (hx.mpr h2.symm)
  · intro x hr hl
    rw [send_battery_status_none, hl]
    have hx := hr x s.battery_status
    simp only [if_true]
    split_ifs with h
    · simpa using (hx.mp h).symm
    · simpa using fun h2 => h (hx.mpr h2.symm)

/-- C5, evaluated: with nothing broadcast yet, a broadcast attempt at cable
state 1 sends the signal "connected"; once the constant "connected" is in
`last`, a broadcast attempt at cable state 2, which renders to the same
constant, sends nothing. -/
theorem broadcast_iff_differs_sample :
    (common_dbus_send_usb_cable_state sampleEnv
        { sampleCommon with usb_cable_state := 1 } none true).2
      = [Sent.signal SignalName.MCE_USB_CABLE_STATE_SIG (Arg.string "connected")] ∧
    (common_dbus_send_usb_cable_state sampleEnv
        { sampleCommon with usb_cable_state := 2, usb_cable_state_last := 4112 } none true).2
      = [] :=
  ⟨((broadcast_iff_differs sampleEnv _).1).trans (by decide),
   ((broadcast_iff_differs sampleEnv _).1).trans (by decide)⟩

/-- C6, counterexample: a broadcast attempt whose argument append fails sends
nothing and yet changes `last`; shown for the battery level channel (level 50
cached, 100 broadcast last) and for the cable channel (state 1 cached, nothing
broadcast yet). -/
theorem failed_append_changes_last :
    ((common_dbus_send_battery_level sampleEnv
        { sampleCommon with battery_level := 50 } none false).2 = [] ∧
      (common_dbus_send_battery_level sampleEnv
        { sampleCommon with battery_level := 50 } none false).1.battery_level_last
        ≠ sampleCommon.battery_level_last) ∧
    ((common_dbus_send_usb_cable_state sampleEnv
        { sampleCommon with usb_cable_state := 1 } none false).2 = [] ∧
      (common_dbus_send_usb_cable_state sampleEnv
        { sampleCommon with usb_cable_state := 1 } none false).1.usb_cable_state_last
        ≠ sampleCommon.usb_cable_state_last) := by
  decide

/-- C6, amended: for each of the four channels, a call to `common_dbus_send_*`
changes nothing but the channel's `last`, and changes `last` exactly when the
call is a broadcast attempt (NULL request) whose rendered value differs from
`last`; it is then set to the rendered value before the argument is appended.
Hence every call that sends a signal has changed `last`, a query reply and a
suppressed broadcast leave it unchanged, and a broadcast attempt whose append
fails sends nothing but leaves `last` set to the rendered value. -/
theorem last_changes_iff_broadcast_attempt_differs
    (env : CommonEnv) (s : CommonState) (req : Option MethodCall) (ok : Bool) :
    ((common_dbus_send_usb_cable_state env s req ok).1 =
        (if req = none ∧
            s.usb_cable_state_last ≠ (env.usb_cable_state_to_dbus s.usb_cable_state).addr then
          { s with usb_cable_state_last :=
                     (env.usb_cable_state_to_dbus s.usb_cable_state).addr }
        else s) ∧
      (signals (common_dbus_send_usb_cable_state env s req ok).2 ≠ [] →
        (common_dbus_send_usb_cable_state env s req ok).1.usb_cable_state_last
          ≠ s.usb_cable_state_last) ∧
      (req = none → ok = false →
        (common_dbus_send_usb_cable_state env s req ok).2 = [])) ∧
    ((common_dbus_send_charger_state env s req ok).1 =
        (if req = none ∧
            s.charger_state_last ≠ (env.charger_state_to_dbus s.charger_state).addr then
          { s with charger_state_last :=
                     (env.charger_state_to_dbus s.charger_state).addr }
        else s) ∧
      (signals (common_dbus_send_charger_state env s req ok).2 ≠ [] →
        (common_dbus_send_charger_state env s req ok).1.charger_state_last
          ≠ s.charger_state_last) ∧
      (req = none → ok = false →
        (common_dbus_send_charger_state env s req ok).2 = [])) ∧
    ((common_dbus_send_battery_status env s req ok).1 =
        (if req = none ∧
            s.battery_status_last ≠ (env.battery_status_to_dbus s.battery_status).addr then
          { s with battery_status_last :=
                     (env.battery_status_to_dbus s.battery_status).addr }
        else s) ∧
      (signals (common_dbus_send_battery_status env s req ok).2 ≠ [] →
        (common_dbus_send_battery_status env s req ok).1.battery_status_last
          ≠ s.battery_status_last) ∧
      (req = none → ok = false →
        (common_dbus_send_battery_status env s req ok).2 = [])) ∧
    ((common_dbus_send_battery_level env s req ok).1 =
        (if req = none ∧
            s.battery_level_last ≠ battery_level_value env s.battery_level then
          { s with battery_level_last := battery_level_value env s.battery_level }
        else s) ∧
      (signals (common_dbus_send_battery_level env s req ok).2 ≠ [] →
        (common_dbus_send_battery_level env s req ok).1.battery_level_last
          ≠ s.battery_level_last) ∧
      (req = none → ok = false →
        (common_dbus_send_battery_level env s req ok).2 = [])) := by
  refine ⟨?_, ?_, ?_, ?_⟩
  · cases req with
    | none =>
      rw [send_usb_cable_state_none]
      cases ok <;> split_ifs with h <;> simp_all [signals, Sent.isSignal]
      exact fun h2 => (by assumption : ¬ _) h2.symm
    | some r =>
      rw [send_usb_cable_state_some]
      cases ok <;> simp [signals, Sent.isSignal]
  · cases req with
    | none =>
      rw [send_charger_state_none]
      cases ok <;> split_ifs with h <;> simp_all [signals, Sent.isSignal]
      exact fun h2 => (by assumption : ¬ _) h2.symm
    | some r =>
      rw [send_charger_state_some]
      cases ok <;> simp [signals, Sent.isSignal]
  · cases req with
    | none =>
      rw [send_battery_status_none]
      cases ok <;> split_ifs with h <;> simp_all [signals, Sent.isSignal]
      exact fun h2 => (by assumption : ¬ _) h2.symm
    | some r =>
      rw [send_battery_status_some]
      cases ok <;> simp [signals, Sent.isSignal]
  · cases req with
    | none =>
      rw [send_battery_level_none]
      cases ok <;> split_ifs with h <;> simp_all [signals, Sent.isSignal]
      exact fun h2 => (by assumption : ¬ _) h2.symm
    | some r =>
      rw [send_battery_level_some]
      cases ok <;> simp [signals, Sent.isSignal]

/-- C6, evaluated: the broadcast attempt at cable state 1 with nothing
broadcast yet sends a signal and moves `last` from NULL to the constant
"connected". -/
theorem last_changes_sample :
    (common_dbus_send_usb_cable_state sampleEnv
        { sampleCommon with usb_cable_state := 1 } none true).1.usb_cable_state_last
      ≠ 0 :=
  (last_changes_iff_broadcast_attempt_differs sampleEnv
    { sampleCommon with usb_cable_state := 1 } none true).1.2.1 (by decide)

/-! ### The datapipe callbacks -/

/-- After `common_datapipe_usb_cable_state_cb` the cached state is the
delivered one. -/
theorem datapipe_usb_cable_state_cached (env : CommonEnv) (s : CommonState)
    (v : usb_cable_state_t) (ok : Bool) :
    (common_datapipe_usb_cable_state_cb env s v ok).1.usb_cable_state = v := by
  unfold common_datapipe_usb_cable_state_cb
  simp only [send_usb_cable_state_none]
  split_ifs <;> rfl

/-- After `common_datapipe_charger_state_cb` the cached state is the delivered
one. -/
theorem datapipe_charger_state_cached (env : CommonEnv) (s : CommonState)
    (v : charger_state_t) (ok : Bool) :
    (common_datapipe_charger_state_cb env s v ok).1.charger_state = v := by
  unfold common_datapipe_charger_state_cb
  simp only [send_charger_state_none]
  split_ifs <;> rfl

/-- After `common_datapipe_battery_status_cb` the cached state is the
delivered one. -/
theorem datapipe_battery_status_cached (env : CommonEnv) (s : CommonState)
    (v : battery_status_t) (ok : Bool) :
    (common_datapipe_battery_status_cb env s v ok).1.battery_status = v := by
  unfold common_datapipe_battery_status_cb
  simp only [send_battery_status_none]
  split_ifs <;> rfl

/-- After `common_datapipe_battery_level_cb` the cached level is the delivered
one. -/
theorem datapipe_battery_level_cached (env : CommonEnv) (s : CommonState)
    (v : Int) (ok : Bool) :
    (common_datapipe_battery_level_cb env s v ok).1.battery_level = v := by
  unfold common_datapipe_battery_level_cb
  simp only [send_battery_level_none]
  split_ifs <;> rfl

/-- Delivering the cached cable state changes nothing and sends nothing. -/
theorem datapipe_usb_cable_state_same (env : CommonEnv) (s : CommonState)
    (v : usb_cable_state_t) (ok : Bool) (h : s.usb_cable_state = v) :
    common_datapipe_usb_cable_state_cb env s v ok = (s, []) := by
  subst h
  unfold common_datapipe_usb_cable_state_cb
  simp

/-- Delivering the cached charger state changes nothing and sends nothing. -/
theorem datapipe_charger_state_same (env : CommonEnv) (s : CommonState)
    (v : charger_state_t) (ok : Bool) (h : s.charger_state = v) :
    common_datapipe_charger_state_cb env s v ok = (s, []) := by
  subst h
  unfold common_datapipe_charger_state_cb
  simp

/-- Delivering the cached battery status changes nothing and sends nothing. -/
theorem datapipe_battery_status_same (env : CommonEnv) (s : CommonState)
    (v : battery_status_t) (ok : Bool) (h : s.battery_status = v) :
    common_datapipe_battery_status_cb env s v ok = (s, []) := by
  subst h
  unfold common_datapipe_battery_status_cb
  simp

/-- Delivering the cached battery level changes nothing and sends nothing. -/
theorem datapipe_battery_level_same (env : CommonEnv) (s : CommonState)
    (v : Int) (ok : Bool) (h : s.battery_level = v) :
    common_datapipe_battery_level_cb env s v ok = (s, []) := by
  subst h
  unfold common_datapipe_battery_level_cb
  simp

/-- One call of `common_datapipe_usb_cable_state_cb` sends at most one
message. -/
theorem datapipe_usb_cable_state_length (env : CommonEnv) (s : CommonState)
    (v : usb_cable_state_t) (ok : Bool) :
    (common_datapipe_usb_cable_state_cb env s v ok).2.length ≤ 1 := by
  unfold common_datapipe_usb_cable_state_cb
  simp only [send_usb_cable_state_none]
  split_ifs <;> simp

/-- One call of `common_datapipe_charger_state_cb` sends at most one
message. -/
theorem datapipe_charger_state_length (env : CommonEnv) (s : CommonState)
    (v : charger_state_t) (ok : Bool) :
    (common_datapipe_charger_state_cb env s v ok).2.length ≤ 1 := by
  unfold common_datapipe_charger_state_cb
  simp only [send_charger_state_none]
  split_ifs <;> simp

/-- One call of `common_datapipe_battery_status_cb` sends at most one
message. -/
theorem datapipe_battery_status_length (env : CommonEnv) (s : CommonState)
    (v : battery_status_t) (ok : Bool) :
    (common_datapipe_battery_status_cb env s v ok).2.length ≤ 1 := by
  unfold common_datapipe_battery_status_cb
  simp only [send_battery_status_none]
  split_ifs <;> simp

/-- One call of `common_datapipe_battery_level_cb` sends at most one
message. -/
theorem datapipe_battery_level_length (env : CommonEnv) (s : CommonState)
    (v : Int) (ok : Bool) :
    (common_datapipe_battery_level_cb env s v ok).2.length ≤ 1 := by
  unfold common_datapipe_battery_level_cb
  simp only [send_battery_level_none]
  split_ifs <;> simp

/-- The signals among the messages are no more than the messages. -/
theorem signals_length_le (out : List Sent) : (signals out).length ≤ out.length := by
  unfold signals
  exact List.length_filter_le _ _

/-- C7: for each of the four channels, every state (so every content of
`last`) and every method call that expects a reply, the handler leaves the
state alone and, the append succeeding, sends exactly one reply carrying the
rendering of the current cached internal value, in which `last` plays no part;
this also holds right after any delivery through the datapipe callback,
whether or not its signal was suppressed.  Example: with level 100 cached and
broadcast, the delivery of 150 sends nothing and the reply to a query is the
rendering of 150. -/
theorem query_reply_is_fresh (env : CommonEnv) (s : CommonState) (serial : Nat) :
    (common_dbus_get_usb_cable_state_cb env s ⟨serial, false⟩ true =
      (s, [Sent.reply ⟨serial, false⟩
            (Arg.string (env.usb_cable_state_to_dbus s.usb_cable_state).text)])) ∧
    (common_dbus_get_charger_state_cb env s ⟨serial, false⟩ true =
      (s, [Sent.reply ⟨serial, false⟩
            (Arg.string (env.charger_state_to_dbus s.charger_state).text)])) ∧
    (common_dbus_get_battery_status_cb env s ⟨serial, false⟩ true =
      (s, [Sent.reply ⟨serial, false⟩
            (Arg.string (env.battery_status_to_dbus s.battery_status).text)])) ∧
    (common_dbus_get_battery_level_cb env s ⟨serial, false⟩ true =
      (s, [Sent.reply ⟨serial, false⟩
            (Arg.int32 (battery_level_value env s.battery_level))])) ∧
    (∀ (v : usb_cable_state_t) (ok : Bool),
      (common_dbus_get_usb_cable_state_cb env
          (common_datapipe_usb_cable_state_cb env s v ok).1 ⟨serial, false⟩ true).2 =
        [Sent.reply ⟨serial, false⟩ (Arg.string (env.usb_cable_state_to_dbus v).text)]) ∧
    (∀ (v : charger_state_t) (ok : Bool),
      (common_dbus_get_charger_state_cb env
          (common_datapipe_charger_state_cb env s v ok).1 ⟨serial, false⟩ true).2 =
        [Sent.reply ⟨serial, false⟩ (Arg.string (env.charger_state_to_dbus v).text)]) ∧
    (∀ (v : battery_status_t) (ok : Bool),
      (common_dbus_get_battery_status_cb env
          (common_datapipe_battery_status_cb env s v ok).1 ⟨serial, false⟩ true).2 =
        [Sent.reply ⟨serial, false⟩ (Arg.string (env.battery_status_to_dbus v).text)]) ∧
    (∀ (v : Int) (ok : Bool),
      (common_dbus_get_battery_level_cb env
          (common_datapipe_battery_level_cb env s v ok).1 ⟨serial, false⟩ true).2 =
        [Sent.reply ⟨serial, false⟩ (Arg.int32 (battery_level_value env v))]) ∧
    (∀ ok : Bool,
      (common_datapipe_battery_level_cb env
          { s with battery_level := 100, battery_level_last := 100 } 150 ok).2 = [] ∧
      (common_datapipe_battery_level_cb env
          { s with battery_level := 100, battery_level_last := 100 } 150 ok).1.battery_level_last
        = 100 ∧
      (common_dbus_get_battery_level_cb env
          (common_datapipe_battery_level_cb env
            { s with battery_level := 100, battery_level_last := 100 } 150 ok).1
          ⟨serial, false⟩ true).2 =
        [Sent.reply ⟨serial, false⟩ (Arg.int32 (battery_level_value env 150))]) := by
  have e1 : ∀ t : CommonState, common_dbus_get_usb_cable_state_cb env t ⟨serial, false⟩ true =
      (t, [Sent.reply ⟨serial, false⟩
            (Arg.string (env.usb_cable_state_to_dbus t.usb_cable_state).text)]) := by
    intro t
    simp [common_dbus_get_usb_cable_state_cb, send_usb_cable_state_some]
  have e2 : ∀ t : CommonState, common_dbus_get_charger_state_cb env t ⟨serial, false⟩ true =
      (t, [Sent.reply ⟨serial, false⟩
            (Arg.string (env.charger_state_to_dbus t.charger_state).text)]) := by
    intro t
    simp [common_dbus_get_charger_state_cb, send_charger_state_some]
  have e3 : ∀ t : CommonState, common_dbus_get_battery_status_cb env t ⟨serial, false⟩ true =
      (t, [Sent.reply ⟨serial, false⟩
            (Arg.string (env.battery_status_to_dbus t.battery_status).text)]) := by
    intro t
    simp [common_dbus_get_battery_status_cb, send_battery_status_some]
  have e4 : ∀ t : CommonState, common_dbus_get_battery_level_cb env t ⟨serial, false⟩ true =
      (t, [Sent.reply ⟨serial, false⟩
            (Arg.int32 (battery_level_value env t.battery_level))]) := by
    intro t
    simp [common_dbus_get_battery_level_cb, send_battery_level_some]
  refine ⟨e1 s, e2 s, e3 s, e4 s, ?_, ?_, ?_, ?_, ?_⟩
  · intro v ok
    rw [e1, datapipe_usb_cable_state_cached]
  · intro v ok
    rw [e2, datapipe_charger_state_cached]
  · intro v ok
    rw [e3, datapipe_battery_status_cached]
  · intro v ok
    rw [e4, datapipe_battery_level_cached]
  · intro ok
    refine ⟨?_, ?_, ?_⟩
    · simp [common_datapipe_battery_level_cb, send_battery_level_none, battery_level_value]
    · simp [common_datapipe_battery_level_cb, send_battery_level_none, battery_level_value]
    · rw [e4, datapipe_battery_level_cached]

/-- C8: called with a method call flagged as needing no reply, the four
handlers of `mce-common.c` send nothing and change nothing, but
`psm_state_get_dbus_cb` does not look at the flag: the append succeeding, it
sends a reply carrying `active_power_saving_mode`. -/
theorem psm_state_get_replies_despite_no_reply
    (s : PsmState) (serial : Nat) (send_ok : Bool) :
    (psm_state_get_dbus_cb s ⟨serial, true⟩ true send_ok).1 =
      [Sent.reply ⟨serial, true⟩ (Arg.boolean s.active_power_saving_mode)] ∧
    (∀ (env : CommonEnv) (c : CommonState) (ok : Bool),
      common_dbus_get_usb_cable_state_cb env c ⟨serial, true⟩ ok = (c, []) ∧
      common_dbus_get_charger_state_cb env c ⟨serial, true⟩ ok = (c, []) ∧
      common_dbus_get_battery_status_cb env c ⟨serial, true⟩ ok = (c, []) ∧
      common_dbus_get_battery_level_cb env c ⟨serial, true⟩ ok = (c, [])) := by
  constructor
  · cases send_ok <;> simp [psm_state_get_dbus_cb, send_psm_state]
  · intro env c ok
    simp [common_dbus_get_usb_cable_state_cb, common_dbus_get_charger_state_cb,
      common_dbus_get_battery_status_cb, common_dbus_get_battery_level_cb]

/-- C9: for each of the four datapipe callbacks and every state, when the same
value is delivered twice in a row the second delivery sends nothing and leaves
the whole state (cached value and `last` included) as the first delivery left
it, and the two deliveries together send at most one signal. -/
theorem same_value_twice (env : CommonEnv) (s : CommonState) (ok1 ok2 : Bool) :
    (∀ v : usb_cable_state_t,
      common_datapipe_usb_cable_state_cb env
          (common_datapipe_usb_cable_state_cb env s v ok1).1 v ok2
        = ((common_datapipe_usb_cable_state_cb env s v ok1).1, []) ∧
      (signals ((common_datapipe_usb_cable_state_cb env s v ok1).2 ++
        (common_datapipe_usb_cable_state_cb env
          (common_datapipe_usb_cable_state_cb env s v ok1).1 v ok2).2)).length ≤ 1) ∧
    (∀ v : charger_state_t,
      common_datapipe_charger_state_cb env
          (common_datapipe_charger_state_cb env s v ok1).1 v ok2
        = ((common_datapipe_charger_state_cb env s v ok1).1, []) ∧
      (signals ((common_datapipe_charger_state_cb env s v ok1).2 ++
        (common_datapipe_charger_state_cb env
          (common_datapipe_charger_state_cb env s v ok1).1 v ok2).2)).length ≤ 1) ∧
    (∀ v : battery_status_t,
      common_datapipe_battery_status_cb env
          (common_datapipe_battery_status_cb env s v ok1).1 v ok2
        = ((common_datapipe_battery_status_cb env s v ok1).1, []) ∧
      (signals ((common_datapipe_battery_status_cb env s v ok1).2 ++
        (common_datapipe_battery_status_cb env
          (common_datapipe_battery_status_cb env s v ok1).1 v ok2).2)).length ≤ 1) ∧
    (∀ v : Int,
      common_datapipe_battery_level_cb env
          (common_datapipe_battery_level_cb env s v ok1).1 v ok2
        = ((common_datapipe_battery_level_cb env s v ok1).1, []) ∧
      (signals ((common_datapipe_battery_level_cb env s v ok1).2 ++
        (common_datapipe_battery_level_cb env
          (common_datapipe_battery_level_cb env s v ok1).1 v ok2).2)).length ≤ 1) := by
  refine ⟨?_, ?_, ?_, ?_⟩
  · intro v
    have h2 := datapipe_usb_cable_state_same env _ v ok2
      (datapipe_usb_cable_state_cached env s v ok1)
    refine ⟨h2, ?_⟩
    rw [h2, List.append_nil]
    exact le_trans (signals_length_le _) (datapipe_usb_cable_state_length env s v ok1)
  · intro v
    have h2 := datapipe_charger_state_same env _ v ok2
      (datapipe_charger_state_cached env s v ok1)
    refine ⟨h2, ?_⟩
    rw [h2, List.append_nil]
    exact le_trans (signals_length_le _) (datapipe_charger_state_length env s v ok1)
  · intro v
    have h2 := datapipe_battery_status_same env _ v ok2
      (datapipe_battery_status_cached env s v ok1)
    refine ⟨h2, ?_⟩
    rw [h2, List.append_nil]
    exact le_trans (signals_length_le _) (datapipe_battery_status_length env s v ok1)
  · intro v
    have h2 := datapipe_battery_level_same env _ v ok2
      (datapipe_battery_level_cached env s v ok1)
    refine ⟨h2, ?_⟩
    rw [h2, List.append_nil]
    exact le_trans (signals_length_le _) (datapipe_battery_level_length env s v ok1)

/-- A delivery that changes the cached charger state leaves the rendering of
the new state in `last`, whether the signal was sent, suppressed or lost. -/
theorem datapipe_charger_state_last (env : CommonEnv) (s : CommonState)
    (v : charger_state_t) (ok : Bool) (h : s.charger_state ≠ v) :
    (common_datapipe_charger_state_cb env s v ok).1.charger_state_last
      = (env.charger_state_to_dbus v).addr := by
  unfold common_datapipe_charger_state_cb
  simp only [send_charger_state_none]
  split_ifs with h1 h2
  · exact absurd h1.symm h
  · exact h2
  · rfl
  · rfl

/-- A delivery that changes the cached battery status leaves the rendering of
the new status in `last`, whether the signal was sent, suppressed or lost. -/
theorem datapipe_battery_status_last (env : CommonEnv) (s : CommonState)
    (v : battery_status_t) (ok : Bool) (h : s.battery_status ≠ v) :
    (common_datapipe_battery_status_cb env s v ok).1.battery_status_last
      = (env.battery_status_to_dbus v).addr := by
  unfold common_datapipe_battery_status_cb
  simp only [send_battery_status_none]
  split_ifs with h1 h2
  · exact absurd h1.symm h
  · exact h2
  · rfl
  · rfl

/-- A delivery that changes the cached battery level leaves the rendering of
the new level in `last`, whether the signal was sent, suppressed or lost. -/
theorem datapipe_battery_level_last (env : CommonEnv) (s : CommonState)
    (v : Int) (ok : Bool) (h : s.battery_level ≠ v) :
    (common_datapipe_battery_level_cb env s v ok).1.battery_level_last
      = battery_level_value env v := by
  unfold common_datapipe_battery_level_cb
  simp only [send_battery_level_none]
  split_ifs with h1 h2
  · exact absurd h1.symm h
  · exact h2
  · rfl
  · rfl

/-- A delivery of a cable state whose string equals the string of the cached
state sends nothing. -/
theorem datapipe_usb_cable_state_same_text (env : CommonEnv) (s : CommonState)
    (v : usb_cable_state_t) (ok : Bool)
    (h : (env.usb_cable_state_to_dbus s.usb_cable_state).text
          = (env.usb_cable_state_to_dbus v).text) :
    (common_datapipe_usb_cable_state_cb env s v ok).2 = [] := by
  unfold common_datapipe_usb_cable_state_cb
  simp only []
  split_ifs <;> rfl

/-- A delivery that finds the rendering of the delivered charger state in
`last` sends nothing. -/
theorem datapipe_charger_state_suppressed (env : CommonEnv) (s : CommonState)
    (v : charger_state_t) (ok : Bool)
    (h : s.charger_state_last = (env.charger_state_to_dbus v).addr) :
    (common_datapipe_charger_state_cb env s v ok).2 = [] := by
  unfold common_datapipe_charger_state_cb
  simp only [send_charger_state_none]
  split_ifs <;> rfl

/-- A delivery that finds the rendering of the delivered battery status in
`last` sends nothing. -/
theorem datapipe_battery_status_suppressed (env : CommonEnv) (s : CommonState)
    (v : battery_status_t) (ok : Bool)
    (h : s.battery_status_last = (env.battery_status_to_dbus v).addr) :
    (common_datapipe_battery_status_cb env s v ok).2 = [] := by
  unfold common_datapipe_battery_status_cb
  simp only [send_battery_status_none]
  split_ifs <;> rfl

/-- A delivery that finds the rendering of the delivered battery level in
`last` sends nothing. -/
theorem datapipe_battery_level_suppressed (env : CommonEnv) (s : CommonState)
    (v : Int) (ok : Bool)
    (h : s.battery_level_last = battery_level_value env v) :
    (common_datapipe_battery_level_cb env s v ok).2 = [] := by
  unfold common_datapipe_battery_level_cb
  simp only [send_battery_level_none]
  split_ifs <;> rfl

/-- C10: for every channel, every starting state and every two internal values
A and B that render to the same wire value, delivering A and then B through
the channel's datapipe callback sends at most one signal in total; and a
delivery that moves the cable state to a state with the same wire string sends
no signal at all.  Rendering to the same wire value means: the same string for
the cable channel (the callback compares with `strcmp`), the same string
constant for the charger and battery status channels (the send function
compares pointers; for a renderer returning string constants this is the same
string), the same normalised level for the battery level channel. -/
theorem dedup_by_rendering (env : CommonEnv) (s : CommonState) (ok1 ok2 : Bool) :
    (∀ A B : usb_cable_state_t,
      (env.usb_cable_state_to_dbus A).text = (env.usb_cable_state_to_dbus B).text →
      (signals ((common_datapipe_usb_cable_state_cb env s A ok1).2 ++
        (common_datapipe_usb_cable_state_cb env
          (common_datapipe_usb_cable_state_cb env s A ok1).1 B ok2).2)).length ≤ 1) ∧
    (∀ A B : charger_state_t,
      (env.charger_state_to_dbus A).addr = (env.charger_state_to_dbus B).addr →
      (signals ((common_datapipe_charger_state_cb env s A ok1).2 ++
        (common_datapipe_charger_state_cb env
          (common_datapipe_charger_state_cb env s A ok1).1 B ok2).2)).length ≤ 1) ∧
    (∀ A B : charger_state_t, StringConstants env.charger_state_to_dbus →
      (env.charger_state_to_dbus A).text = (env.charger_state_to_dbus B).text →
      (signals ((common_datapipe_charger_state_cb env s A ok1).2 ++
        (common_datapipe_charger_state_cb env
          (common_datapipe_charger_state_cb env s A ok1).1 B ok2).2)).length ≤ 1) ∧
    (∀ A B : battery_status_t,
      (env.battery_status_to_dbus A).addr = (env.battery_status_to_dbus B).addr →
      (signals ((common_datapipe_battery_status_cb env s A ok1).2 ++
        (common_datapipe_battery_status_cb env
          (common_datapipe_battery_status_cb env s A ok1).1 B ok2).2)).length ≤ 1) ∧
    (∀ A B : battery_status_t, StringConstants env.battery_status_to_dbus →
      (env.battery_status_to_dbus A).text = (env.battery_status_to_dbus B).text →
      (signals ((common_datapipe_battery_status_cb env s A ok1).2 ++
        (common_datapipe_battery_status_cb env
          (common_datapipe_battery_status_cb env s A ok1).1 B ok2).2)).length ≤ 1) ∧
    (∀ A B : Int,
      battery_level_value env A = battery_level_value env B →
      (signals ((common_datapipe_battery_level_cb env s A ok1).2 ++
        (common_datapipe_battery_level_cb env
          (common_datapipe_battery_level_cb env s A ok1).1 B ok2).2)).length ≤ 1) ∧
    (∀ B : usb_cable_state_t,
      (env.usb_cable_state_to_dbus s.usb_cable_state).text
        = (env.usb_cable_state_to_dbus B).text →
      (common_datapipe_usb_cable_state_cb env s B ok1).2 = []) := by
  have hch : ∀ A B : charger_state_t,
      (env.charger_state_to_dbus A).addr = (env.charger_state_to_dbus B).addr →
      (signals ((common_datapipe_charger_state_cb env s A ok1).2 ++
        (common_datapipe_charger_state_cb env
          (common_datapipe_charger_state_cb env s A ok1).1 B ok2).2)).length ≤ 1 := by
    intro A B h
    by_cases hA : s.charger_state = A
    · rw [datapipe_charger_state_same env s A ok1 hA, List.nil_append]
      exact le_trans (signals_length_le _) (datapipe_charger_state_length env s B ok2)
    · rw [datapipe_charger_state_suppressed env _ B ok2
        ((datapipe_charger_state_last env s A ok1 hA).trans h), List.append_nil]
      exact le_trans (signals_length_le _) (datapipe_charger_state_length env s A ok1)
  have hbs : ∀ A B : battery_status_t,
      (env.battery_status_to_dbus A).addr = (env.battery_status_to_dbus B).addr →
      (signals ((common_datapipe_battery_status_cb env s A ok1).2 ++
        (common_datapipe_battery_status_cb env
          (common_datapipe_battery_status_cb env s A ok1).1 B ok2).2)).length ≤ 1 := by
    intro A B h
    by_cases hA : s.battery_status = A
    · rw [datapipe_battery_status_same env s A ok1 hA, List.nil_append]
      exact le_trans (signals_length_le _) (datapipe_battery_status_length env s B ok2)
    · rw [datapipe_battery_status_suppressed env _ B ok2
        ((datapipe_battery_status_last env s A ok1 hA).trans h), List.append_nil]
      exact le_trans (signals_length_le _) (datapipe_battery_status_length env s A ok1)
  refine ⟨?_, hch, ?_, hbs, ?_, ?_, ?_⟩
  · intro A B h
    have h2 : (common_datapipe_usb_cable_state_cb env
        (common_datapipe_usb_cable_state_cb env s A ok1).1 B ok2).2 = [] := by
      apply datapipe_usb_cable_state_same_text
      rw [datapipe_usb_cable_state_cached]
      exact h
    rw [h2, List.append_nil]
    exact le_trans (signals_length_le _) (datapipe_usb_cable_state_length env s A ok1)
  · intro A B hr h
    exact hch A B ((hr A B).mpr h)
  · intro A B hr h
    exact hbs A B ((hr A B).mpr h)
  · intro A B h
    by_cases hA : s.battery_level = A
    · rw [datapipe_battery_level_same env s A ok1 hA, List.nil_append]
      exact le_trans (signals_length_le _) (datapipe_battery_level_length env s B ok2)
    · rw [datapipe_battery_level_suppressed env _ B ok2
        ((datapipe_battery_level_last env s A ok1 hA).trans h), List.append_nil]
      exact le_trans (signals_length_le _) (datapipe_battery_level_length env s A ok1)
  · intro B h
    exact datapipe_usb_cable_state_same_text env s B ok1 h

/-- C10, evaluated: from the sample state, delivering cable state 1 and then
cable state 2 (both render to "connected") sends exactly one signal;
delivering battery level 120 and then 150 (both render to 100) when 50 was
broadcast last sends at most one; the step from cable state 1 to cable state 2
sends nothing. -/
theorem dedup_by_rendering_sample :
    (signals ((common_datapipe_usb_cable_state_cb sampleEnv sampleCommon 1 true).2 ++
        (common_datapipe_usb_cable_state_cb sampleEnv
          (common_datapipe_usb_cable_state_cb sampleEnv sampleCommon 1 true).1
          2 true).2)).length ≤ 1 ∧
    (signals ((common_datapipe_usb_cable_state_cb sampleEnv sampleCommon 1 true).2 ++
        (common_datapipe_usb_cable_state_cb sampleEnv
          (common_datapipe_usb_cable_state_cb sampleEnv sampleCommon 1 true).1
          2 true).2))
      = [Sent.signal SignalName.MCE_USB_CABLE_STATE_SIG (Arg.string "connected")] ∧
    (signals ((common_datapipe_battery_level_cb sampleEnv
          { sampleCommon with battery_level_last := 50 } 120 true).2 ++
        (common_datapipe_battery_level_cb sampleEnv
          (common_datapipe_battery_level_cb sampleEnv
            { sampleCommon with battery_level_last := 50 } 120 true).1
          150 true).2)).length ≤ 1 ∧
    (common_datapipe_usb_cable_state_cb sampleEnv
        { sampleCommon with usb_cable_state := 1, usb_cable_state_last := 4112 }
        2 true).2 = [] :=
  ⟨(dedup_by_rendering sampleEnv sampleCommon true true).1 1 2 (by decide),
   by decide,
   (dedup_by_rendering sampleEnv _ true true).2.2.2.2.2.1 120 150 (by decide),
   (dedup_by_rendering sampleEnv _ true true).2.2.2.2.2.2 2 (by decide)⟩

/-! ## Theorems: the power saving mode module as a state machine -/

/-- The newly computed decision is `TRUE` or `FALSE`. -/
theorem new_power_saving_mode_bool (s : PsmState) :
    new_power_saving_mode s = TRUE ∨ new_power_saving_mode s = FALSE := by
  unfold new_power_saving_mode
  split_ifs
  · exact Or.inl rfl
  · exact Or.inr rfl

/-- The newly computed decision does not depend on the stored decision nor on
the notifier ids. -/
theorem new_power_saving_mode_inputs (s t : PsmState)
    (h1 : t.battery_level = s.battery_level) (h2 : t.psm_threshold = s.psm_threshold)
    (h3 : t.power_saving_mode = s.power_saving_mode) (h4 : t.force_psm = s.force_psm)
    (h5 : t.charger_state = s.charger_state) (h6 : t.thermal_state = s.thermal_state) :
    new_power_saving_mode t = new_power_saving_mode s := by
  unfold new_power_saving_mode
  rw [h1, h2, h3, h4, h5, h6]

/-- What `update_power_saving_mode` does, in one expression. -/
theorem update_power_saving_mode_eq (s : PsmState) (append_ok send_ok : Bool) :
    update_power_saving_mode s append_ok send_ok =
      if s.active_power_saving_mode ≠ new_power_saving_mode s then
        ({ s with active_power_saving_mode := new_power_saving_mode s },
         PsmOut.datapipe_exec_full (new_power_saving_mode s) ::
           (if append_ok then [PsmOut.dbus (psm_state_signal (new_power_saving_mode s))]
            else []))
      else (s, []) := by
  unfold update_power_saving_mode send_psm_state psm_state_signal
  cases append_ok <;> simp

/-- C12, amended: `update_power_saving_mode` pushes to
`power_saving_mode_active_pipe` if and only if the newly computed decision
differs from the stored `active_power_saving_mode`, whatever the outcome of
the argument append.  On a change it stores the new decision, pushes it and
then, provided the argument append succeeds, sends exactly one PSM state
signal carrying it; when the append fails the push is the only output.  When
the decision is unchanged it produces no output and changes no state. -/
theorem update_power_saving_mode_on_change (s : PsmState) (send_ok : Bool) :
    (s.active_power_saving_mode ≠ new_power_saving_mode s →
      update_power_saving_mode s true send_ok =
        ({ s with active_power_saving_mode := new_power_saving_mode s },
         [PsmOut.datapipe_exec_full (new_power_saving_mode s),
          PsmOut.dbus (Sent.signal SignalName.MCE_PSM_STATE_SIG
            (Arg.boolean (new_power_saving_mode s)))])) ∧
    (∀ append_ok : Bool, s.active_power_saving_mode = new_power_saving_mode s →
      update_power_saving_mode s append_ok send_ok = (s, [])) ∧
    ((update_power_saving_mode s true send_ok).2 ≠ [] ↔
      s.active_power_saving_mode ≠ new_power_saving_mode s) ∧
    (s.active_power_saving_mode ≠ new_power_saving_mode s →
      update_power_saving_mode s false send_ok =
        ({ s with active_power_saving_mode := new_power_saving_mode s },
         [PsmOut.datapipe_exec_full (new_power_saving_mode s)])) ∧
    (∀ append_ok : Bool,
      (PsmOut.datapipe_exec_full (new_power_saving_mode s) ∈
          (update_power_saving_mode s append_ok send_ok).2 ↔
        s.active_power_saving_mode ≠ new_power_saving_mode s) ∧
      ((update_power_saving_mode s append_ok send_ok).2 ≠ [] ↔
        s.active_power_saving_mode ≠ new_power_saving_mode s)) := by
  refine ⟨?_, ?_, ?_, ?_, ?_⟩
  · intro h
    rw [update_power_saving_mode_eq]
    simp [h, psm_state_signal]
  · intro append_ok h
    rw [update_power_saving_mode_eq]
    simp [h]
  · rw [update_power_saving_mode_eq]
    split_ifs with h <;> simp_all
  · intro h
    rw [update_power_saving_mode_eq]
    simp [h]
  · intro append_ok
    rw [update_power_saving_mode_eq]
    split_ifs with h <;> simp_all

/-- C12, counterexample: with the decision so far `FALSE`, battery level 10
against threshold 20 and power saving enabled, the newly computed decision
differs from the stored one, and yet with a failed argument append the update
pushes 1 and sends no PSM state signal. -/
theorem change_with_failed_append_sends_no_signal :
    (psm_initial_sample.active_power_saving_mode
        ≠ new_power_saving_mode psm_initial_sample) ∧
    (update_power_saving_mode psm_initial_sample false true).2 =
      [PsmOut.datapipe_exec_full 1] ∧
    psm_signals (update_power_saving_mode psm_initial_sample false true).2 = [] := by
  decide

/-- C12, evaluated: with the decision so far `FALSE`, battery level 10 against
threshold 20 and power saving enabled, the update stores `TRUE`, pushes 1 and
sends one signal carrying 1. -/
theorem update_power_saving_mode_on_change_sample :
    update_power_saving_mode
        { samplePsm with battery_level := 10, power_saving_mode := TRUE } true true =
      ({ samplePsm with battery_level := 10, power_saving_mode := TRUE,
                        active_power_saving_mode := 1 },
       [PsmOut.datapipe_exec_full 1,
        PsmOut.dbus (Sent.signal SignalName.MCE_PSM_STATE_SIG (Arg.boolean 1))]) :=
  ((update_power_saving_mode_on_change
      { samplePsm with battery_level := 10, power_saving_mode := TRUE } true).1
    (by decide)).trans (by decide)

/-- The state after `update_power_saving_mode`: only the stored decision can
have changed, and it is the newly computed one. -/
theorem update_power_saving_mode_state (s : PsmState) (append_ok send_ok : Bool) :
    (update_power_saving_mode s append_ok send_ok).1 =
      { s with active_power_saving_mode := new_power_saving_mode s } := by
  rw [update_power_saving_mode_eq]
  by_cases h : s.active_power_saving_mode = new_power_saving_mode s
  · simp [← h]
  · simp [h]

/-- C14: after `battery_level_trigger`, `charger_state_trigger`,
`thermal_state_trigger`, or `psm_setting_cb` called with a set value and one
of the three (pairwise distinct) registered notifier ids, exactly the one
corresponding input or configuration variable holds the delivered value, every
other input is unchanged, and `active_power_saving_mode` equals the full
decision rule evaluated on the resulting inputs; `psm_setting_cb` with an
unset value or an unrecognised id changes no state and produces no output. -/
theorem callbacks_update_one_input (s : PsmState) (append_ok send_ok : Bool)
    (h12 : s.power_saving_mode_setting_id ≠ s.force_psm_setting_id)
    (h13 : s.power_saving_mode_setting_id ≠ s.psm_threshold_setting_id)
    (h23 : s.force_psm_setting_id ≠ s.psm_threshold_setting_id) :
    (∀ data : Int,
      (battery_level_trigger s data append_ok send_ok).1 =
        { s with battery_level := data
                 active_power_saving_mode :=
                   new_power_saving_mode { s with battery_level := data } } ∧
      (battery_level_trigger s data append_ok send_ok).1.active_power_saving_mode =
        new_power_saving_mode (battery_level_trigger s data append_ok send_ok).1) ∧
    (∀ data : charger_state_t,
      (charger_state_trigger s data append_ok send_ok).1 =
        { s with charger_state := data
                 active_power_saving_mode :=
                   new_power_saving_mode { s with charger_state := data } } ∧
      (charger_state_trigger s data append_ok send_ok).1.active_power_saving_mode =
        new_power_saving_mode (charger_state_trigger s data append_ok send_ok).1) ∧
    (∀ data : thermal_state_t,
      (thermal_state_trigger s data append_ok send_ok).1 =
        { s with thermal_state := data
                 active_power_saving_mode :=
                   new_power_saving_mode { s with thermal_state := data } } ∧
      (thermal_state_trigger s data append_ok send_ok).1.active_power_saving_mode =
        new_power_saving_mode (thermal_state_trigger s data append_ok send_ok).1) ∧
    (∀ v : GConfValue,
      (psm_setting_cb s s.power_saving_mode_setting_id (some v) append_ok send_ok).1 =
        { s with power_saving_mode := gconf_value_get_bool v
                 active_power_saving_mode :=
                   new_power_saving_mode
                     { s with power_saving_mode := gconf_value_get_bool v } } ∧
      (psm_setting_cb s s.power_saving_mode_setting_id (some v)
          append_ok send_ok).1.active_power_saving_mode =
        new_power_saving_mode
          (psm_setting_cb s s.power_saving_mode_setting_id (some v) append_ok send_ok).1) ∧
    (∀ v : GConfValue,
      (psm_setting_cb s s.force_psm_setting_id (some v) append_ok send_ok).1 =
        { s with force_psm := gconf_value_get_bool v
                 active_power_saving_mode :=
                   new_power_saving_mode { s with force_psm := gconf_value_get_bool v } } ∧
      (psm_setting_cb s s.force_psm_setting_id (some v)
          append_ok send_ok).1.active_power_saving_mode =
        new_power_saving_mode
          (psm_setting_cb s s.force_psm_setting_id (some v) append_ok send_ok).1) ∧
    (∀ v : GConfValue,
      (psm_setting_cb s s.psm_threshold_setting_id (some v) append_ok send_ok).1 =
        { s with psm_threshold := gconf_value_get_int v
                 active_power_saving_mode :=
                   new_power_saving_mode { s with psm_threshold := gconf_value_get_int v } } ∧
      (psm_setting_cb s s.psm_threshold_setting_id (some v)
          append_ok send_ok).1.active_power_saving_mode =
        new_power_saving_mode
          (psm_setting_cb s s.psm_threshold_setting_id (some v) append_ok send_ok).1) ∧
    (∀ id : Nat, psm_setting_cb s id none append_ok send_ok = (s, [])) ∧
    (∀ (id : Nat) (v : GConfValue),
      id ≠ s.power_saving_mode_setting_id → id ≠ s.force_psm_setting_id →
      id ≠ s.psm_threshold_setting_id →
      psm_setting_cb s id (some v) append_ok send_ok = (s, [])) := by
  have key : ∀ t : PsmState,
      (update_power_saving_mode t append_ok send_ok).1.active_power_saving_mode =
        new_power_saving_mode (update_power_saving_mode t append_ok send_ok).1 := by
    intro t
    rw [update_power_saving_mode_state]
    exact (new_power_saving_mode_inputs t _ rfl rfl rfl rfl rfl rfl).symm
  refine ⟨?_, ?_, ?_, ?_, ?_, ?_, ?_, ?_⟩
  · intro data
    unfold battery_level_trigger
    exact ⟨update_power_saving_mode_state _ _ _, key _⟩
  · intro data
    unfold charger_state_trigger
    exact ⟨update_power_saving_mode_state _ _ _, key _⟩
  · intro data
    unfold thermal_state_trigger
    exact ⟨update_power_saving_mode_state _ _ _, key _⟩
  · intro v
    have e : psm_setting_cb s s.power_saving_mode_setting_id (some v) append_ok send_ok =
        update_power_saving_mode { s with power_saving_mode := gconf_value_get_bool v }
          append_ok send_ok := by
      simp [psm_setting_cb]
    rw [e]
    exact ⟨update_power_saving_mode_state _ _ _, key _⟩
  · intro v
    have e : psm_setting_cb s s.force_psm_setting_id (some v) append_ok send_ok =
        update_power_saving_mode { s with force_psm := gconf_value_get_bool v }
          append_ok send_ok := by
      simp [psm_setting_cb, Ne.symm h12]
    rw [e]
    exact ⟨update_power_saving_mode_state _ _ _, key _⟩
  · intro v
    have e : psm_setting_cb s s.psm_threshold_setting_id (some v) append_ok send_ok =
        update_power_saving_mode { s with psm_threshold := gconf_value_get_int v }
          append_ok send_ok := by
      simp [psm_setting_cb, Ne.symm h13, Ne.symm h23]
    rw [e]
    exact ⟨update_power_saving_mode_state _ _ _, key _⟩
  · intro id
    simp [psm_setting_cb]
  · intro id v h1 h2 h3
    simp [psm_setting_cb, h1, h2, h3]

/-- C14, evaluated: in the sample state (notifier ids 1, 2 and 3, battery
level 100, threshold 20) the notifier for the forced setting delivering `TRUE`
sets `force_psm` to 1 and the decision to 1 and leaves the rest alone; an
unset value, and the unregistered id 7, change nothing. -/
theorem callbacks_update_one_input_sample :
    (psm_setting_cb samplePsm 2 (some (GConfValue.bool 1)) true true).1 =
      { samplePsm with force_psm := 1, active_power_saving_mode := 1 } ∧
    psm_setting_cb samplePsm 2 none true true = (samplePsm, []) ∧
    psm_setting_cb samplePsm 7 (some (GConfValue.bool 1)) true true = (samplePsm, []) :=
  have h := callbacks_update_one_input samplePsm true true
    (by decide) (by decide) (by decide)
  ⟨(h.2.2.2.2.1 (GConfValue.bool 1)).1.trans (by decide),
   h.2.2.2.2.2.2.1 2,
   h.2.2.2.2.2.2.2 7 (GConfValue.bool 1) (by decide) (by decide) (by decide)⟩

/-! ### Sequences of calls into the power saving mode module -/

/-- Appending one value to an alternating list: the list stays alternating
exactly when the new value is the one whose turn it is. -/
theorem alternates_append_one (vs : List Int) :
    ∀ (expect v : Int),
      alternates expect (vs ++ [v]) ↔
        (alternates expect vs ∧
          v = if vs.length % 2 = 0 then expect else 1 - expect) := by
  induction vs with
  | nil =>
    intro expect v
    simp [alternates]
  | cons a as ih =>
    intro expect v
    show (a = expect ∧ alternates (1 - expect) (as ++ [v])) ↔
      ((a = expect ∧ alternates (1 - expect) as) ∧
        v = if (as.length + 1) % 2 = 0 then expect else 1 - expect)
    rw [ih (1 - expect) v]
    by_cases h : as.length % 2 = 0
    · have h2 : ¬ (as.length + 1) % 2 = 0 := by omega
      simp [h, h2, and_assoc]
    · have h2 : (as.length + 1) % 2 = 0 := by omega
      simp [h, h2, and_assoc]

/-- An alternating list of truth values never repeats a value, starts with the
expected value and holds only 0 and 1. -/
theorem alternates_spec (vs : List Int) :
    ∀ expect : Int, (expect = 0 ∨ expect = 1) → alternates expect vs →
      List.Chain' (fun a b => a ≠ b) vs ∧
      (∀ v ∈ vs.head?, v = expect) ∧
      (∀ v ∈ vs, v = 0 ∨ v = 1) := by
  induction vs with
  | nil =>
    intro expect _ _
    simp
  | cons a as ih =>
    intro expect he h
    obtain ⟨ha, hrest⟩ := h
    have he2 : (1 - expect = 0 ∨ 1 - expect = 1) := by omega
    obtain ⟨c, hd, mem⟩ := ih (1 - expect) he2 hrest
    refine ⟨?_, ?_, ?_⟩
    · rw [List.chain'_cons']
      refine ⟨?_, c⟩
      intro y hy
      have := hd y hy
      omega
    · intro v hv
      simp at hv
      omega
    · intro v hv
      rcases List.mem_cons.mp hv with h1 | h1
      · omega
      · exact mem v h1

/-- What one `update_power_saving_mode` with the append succeeding adds to the
signals: nothing when the decision stays, one PSM state signal carrying the
new decision when it changes. -/
theorem update_power_saving_mode_signals (s : PsmState) (send_ok : Bool) :
    ((update_power_saving_mode s true send_ok).1.active_power_saving_mode
        = s.active_power_saving_mode ∧
      psm_signals (update_power_saving_mode s true send_ok).2 = [] ∧
      psm_signal_values (update_power_saving_mode s true send_ok).2 = []) ∨
    ((update_power_saving_mode s true send_ok).1.active_power_saving_mode
        ≠ s.active_power_saving_mode ∧
      ((update_power_saving_mode s true send_ok).1.active_power_saving_mode = TRUE ∨
        (update_power_saving_mode s true send_ok).1.active_power_saving_mode = FALSE) ∧
      psm_signals (update_power_saving_mode s true send_ok).2 =
        [psm_state_signal (update_power_saving_mode s true send_ok).1.active_power_saving_mode] ∧
      psm_signal_values (update_power_saving_mode s true send_ok).2 =
        [(update_power_saving_mode s true send_ok).1.active_power_saving_mode]) := by
  rw [update_power_saving_mode_eq]
  by_cases h : s.active_power_saving_mode = new_power_saving_mode s
  · left
    simp [h, psm_signals, psm_signal_values]
  · right
    simp only [ne_eq, h, not_false_eq_true, if_true]
    refine ⟨fun h2 => h h2.symm, new_power_saving_mode_bool s, ?_, ?_⟩
    · simp [psm_signals, psm_state_signal, PsmOut.signal?]
    · simp [psm_signal_values, psm_state_signal, PsmOut.psm_value?]

/-- Every call into the module, the append succeeding, either leaves the
decision and sends no signal, or changes the decision and sends one PSM state
signal carrying the new decision. -/
theorem psm_step_shape (s : PsmState) (e : PsmEvent) (send_ok : Bool) :
    PsmStepShape s (psm_step true send_ok s e) := by
  cases e with
  | battery_level data =>
    exact update_power_saving_mode_signals { s with battery_level := data } send_ok
  | charger_state data =>
    exact update_power_saving_mode_signals { s with charger_state := data } send_ok
  | thermal_state data =>
    exact update_power_saving_mode_signals { s with thermal_state := data } send_ok
  | setting id gcv =>
    cases gcv with
    | none =>
      left
      simp [psm_step, psm_setting_cb, psm_signals, psm_signal_values]
    | some v =>
      simp only [psm_step, psm_setting_cb]
      split_ifs
      · exact update_power_saving_mode_signals
          { s with power_saving_mode := gconf_value_get_bool v } send_ok
      · exact update_power_saving_mode_signals
          { s with force_psm := gconf_value_get_bool v } send_ok
      · exact update_power_saving_mode_signals
          { s with psm_threshold := gconf_value_get_int v } send_ok
      · left
        simp [psm_signals, psm_signal_values]
  | get_psm_state msg =>
    left
    cases send_ok <;>
      simp [psm_step, psm_state_get_dbus_cb, send_psm_state, psm_signals,
        psm_signal_values, PsmOut.signal?, PsmOut.psm_value?]

/-- One call of the given shape keeps the relation between the stored decision
and the outputs so far. -/
theorem psm_inv_step (s : PsmState) (h : List PsmOut) (r : PsmState × List PsmOut)
    (hinv : PsmInv s h) (hr : PsmStepShape s r) : PsmInv r.1 (h ++ r.2) := by
  obtain ⟨h1, h2, h3⟩ := hinv
  unfold PsmInv
  have ea : psm_signals (h ++ r.2) = psm_signals h ++ psm_signals r.2 := by
    simp [psm_signals, List.filterMap_append]
  have eb : psm_signal_values (h ++ r.2) = psm_signal_values h ++ psm_signal_values r.2 := by
    simp [psm_signal_values, List.filterMap_append]
  rcases hr with ⟨k1, k2, k3⟩ | ⟨k1, k2, k3, k4⟩
  · rw [ea, eb, k2, k3, List.append_nil, List.append_nil, k1]
    exact ⟨h1, h2, h3⟩
  · rw [ea, eb, k3, k4, h1, List.map_append]
    refine ⟨rfl, ?_, ?_⟩
    · rw [alternates_append_one]
      refine ⟨h2, ?_⟩
      rw [h3] at k1
      unfold TRUE FALSE at *
      split_ifs at k1 ⊢ <;> omega
    · rw [h3] at k1
      simp only [List.length_append, List.length_singleton]
      unfold TRUE FALSE at *
      split_ifs at k1 ⊢ <;> omega

/-- A sequence of calls, the appends succeeding, keeps the relation between
the stored decision and the outputs. -/
theorem psm_inv_run (send_ok : Bool) (evs : List PsmEvent) :
    ∀ (s : PsmState) (h : List PsmOut), PsmInv s h →
      PsmInv (psm_run true send_ok s evs).1 (h ++ (psm_run true send_ok s evs).2) := by
  induction evs with
  | nil =>
    intro s h hinv
    simpa [psm_run] using hinv
  | cons e es ih =>
    intro s h hinv
    have h1 := psm_inv_step s h _ hinv (psm_step_shape s e send_ok)
    have h2 := ih _ _ h1
    simpa [psm_run, List.append_assoc] using h2

/-- C16, amended: in every sequence of trigger callbacks, settings callbacks
and queries that starts with `active_power_saving_mode = FALSE` and in which
every argument append succeeds, every signal sent is a PSM state signal; the
values carried never repeat from one signal to the next, the first is `TRUE`,
each is 0 or 1; and a query never sends a signal, whatever the outcome of its
append. -/
theorem psm_signals_alternate (s0 : PsmState) (evs : List PsmEvent) (send_ok : Bool) :
    psm_signals
        (psm_run true send_ok { s0 with active_power_saving_mode := FALSE } evs).2 =
      (psm_signal_values
        (psm_run true send_ok { s0 with active_power_saving_mode := FALSE } evs).2).map
        (fun v => Sent.signal SignalName.MCE_PSM_STATE_SIG (Arg.boolean v)) ∧
    List.Chain' (fun a b => a ≠ b)
      (psm_signal_values
        (psm_run true send_ok { s0 with active_power_saving_mode := FALSE } evs).2) ∧
    (∀ v ∈ (psm_signal_values
        (psm_run true send_ok { s0 with active_power_saving_mode := FALSE } evs).2).head?,
      v = TRUE) ∧
    (∀ v ∈ psm_signal_values
        (psm_run true send_ok { s0 with active_power_saving_mode := FALSE } evs).2,
      v = 0 ∨ v = 1) ∧
    (∀ (s : PsmState) (msg : MethodCall) (append_ok : Bool),
      psm_signals (psm_step append_ok send_ok s (PsmEvent.get_psm_state msg)).2 = []) := by
  have h0 : PsmInv { s0 with active_power_saving_mode := FALSE } [] := by
    simp [PsmInv, psm_signals, psm_signal_values, alternates]
  have h := psm_inv_run send_ok evs _ _ h0
  rw [List.nil_append] at h
  obtain ⟨h1, h2, _⟩ := h
  obtain ⟨c, hd, mem⟩ := alternates_spec _ TRUE (Or.inr rfl) h2
  refine ⟨h1, c, hd, mem, ?_⟩
  intro s msg append_ok
  cases append_ok <;> cases send_ok <;>
    simp [psm_step, psm_state_get_dbus_cb, send_psm_state, psm_signals, PsmOut.signal?]

/-- C16, counterexample: with power saving enabled and the decision `FALSE`,
the battery level goes 10, 50, 10, 50 and the argument append fails at each
delivery of 10: the decision changes to `TRUE` without a signal and each
delivery of 50 sends a signal carrying `FALSE`, so the signals sent carry
FALSE, FALSE: the first is not `TRUE` and the value repeats. -/
theorem psm_signals_repeat_after_failed_append :
    psm_signal_values
        (psm_run_outcomes true psm_initial_sample
          [(false, PsmEvent.battery_level 10), (true, PsmEvent.battery_level 50),
           (false, PsmEvent.battery_level 10), (true, PsmEvent.battery_level 50)]).2
      = [0, 0] ∧
    ¬ List.Chain' (fun a b => a ≠ b)
        (psm_signal_values
          (psm_run_outcomes true psm_initial_sample
            [(false, PsmEvent.battery_level 10), (true, PsmEvent.battery_level 50),
             (false, PsmEvent.battery_level 10), (true, PsmEvent.battery_level 50)]).2) ∧
    ¬ (∀ v ∈ (psm_signal_values
          (psm_run_outcomes true psm_initial_sample
            [(false, PsmEvent.battery_level 10), (true, PsmEvent.battery_level 50),
             (false, PsmEvent.battery_level 10), (true, PsmEvent.battery_level 50)]).2).head?,
        v = TRUE) := by
  have e : psm_signal_values
        (psm_run_outcomes true psm_initial_sample
          [(false, PsmEvent.battery_level 10), (true, PsmEvent.battery_level 50),
           (false, PsmEvent.battery_level 10), (true, PsmEvent.battery_level 50)]).2
      = [0, 0] := by decide
  rw [e]
  refine ⟨rfl, ?_, ?_⟩
  · simp
  · simp [TRUE]

/-- C16, evaluated: from the sample state, enabling power saving, then battery
level 10, a query, battery level 15, the charger switched on, and battery level
5 send the signals TRUE (at level 10) and FALSE (at charger on) and no
other. -/
theorem psm_signals_alternate_sample :
    psm_signal_values
        (psm_run true true { samplePsm with active_power_saving_mode := FALSE }
          [PsmEvent.setting 1 (some (GConfValue.bool 1)),
           PsmEvent.battery_level 10,
           PsmEvent.get_psm_state ⟨1, false⟩,
           PsmEvent.battery_level 15,
           PsmEvent.charger_state charger_state_t.CHARGER_STATE_ON,
           PsmEvent.battery_level 5]).2 = [1, 0] ∧
    List.Chain' (fun a b => a ≠ b)
      (psm_signal_values
        (psm_run true true { samplePsm with active_power_saving_mode := FALSE }
          [PsmEvent.setting 1 (some (GConfValue.bool 1)),
           PsmEvent.battery_level 10,
           PsmEvent.get_psm_state ⟨1, false⟩,
           PsmEvent.battery_level 15,
           PsmEvent.charger_state charger_state_t.CHARGER_STATE_ON,
           PsmEvent.battery_level 5]).2) :=
  ⟨by decide, (psm_signals_alternate samplePsm _ true).2.1⟩

/-! ## Theorems: mce-common.c as a state machine -/

/-- The signal arguments of two message lists in a row. -/
theorem signal_args_append (name : SignalName) (h o : List Sent) :
    signal_args name (h ++ o) = signal_args name h ++ signal_args name o := by
  simp [signal_args, List.filterMap_append]

/-- A broadcast attempt on the cable channel, the append succeeding, keeps the
four channel relations. -/
theorem common_inv_send_usb_cable_state (env : CommonEnv) (s : CommonState)
    (h : List Sent) (hinv : CommonInv env s h) :
    CommonInv env (common_dbus_send_usb_cable_state env s none true).1
      (h ++ (common_dbus_send_usb_cable_state env s none true).2) := by
  obtain ⟨h1, h2, h3, h4⟩ := hinv
  rw [send_usb_cable_state_none]
  simp only [if_true]
  split_ifs with hc
  · simpa [CommonInv] using ⟨h1, h2, h3, h4⟩
  · refine ⟨?_, ?_, ?_, ?_⟩
    · right
      simp [signal_args_append, signal_args, Sent.signalArg?]
    · simpa [ChargerInv, signal_args_append, signal_args, Sent.signalArg?] using h2
    · simpa [BatteryStatusInv, signal_args_append, signal_args, Sent.signalArg?] using h3
    · simpa [BatteryLevelInv, signal_args_append, signal_args, Sent.signalArg?] using h4

/-- A broadcast attempt on the charger channel, the append succeeding, keeps
the four channel relations. -/
theorem common_inv_send_charger_state (env : CommonEnv) (s : CommonState)
    (h : List Sent) (hinv : CommonInv env s h) :
    CommonInv env (common_dbus_send_charger_state env s none true).1
      (h ++ (common_dbus_send_charger_state env s none true).2) := by
  obtain ⟨h1, h2, h3, h4⟩ := hinv
  rw [send_charger_state_none]
  simp only [if_true]
  split_ifs with hc
  · simpa [CommonInv] using ⟨h1, h2, h3, h4⟩
  · refine ⟨?_, ?_, ?_, ?_⟩
    · simpa [UsbCableInv, signal_args_append, signal_args, Sent.signalArg?] using h1
    · right
      simp [signal_args_append, signal_args, Sent.signalArg?]
    · simpa [BatteryStatusInv, signal_args_append, signal_args, Sent.signalArg?] using h3
    · simpa [BatteryLevelInv, signal_args_append, signal_args, Sent.signalArg?] using h4

/-- A broadcast attempt on the battery status channel, the append succeeding,
keeps the four channel relations. -/
theorem common_inv_send_battery_status (env : CommonEnv) (s : CommonState)
    (h : List Sent) (hinv : CommonInv env s h) :
    CommonInv env (common_dbus_send_battery_status env s none true).1
      (h ++ (common_dbus_send_battery_status env s none true).2) := by
  obtain ⟨h1, h2, h3, h4⟩ := hinv
  rw [send_battery_status_none]
  simp only [if_true]
  split_ifs with hc
  · simpa [CommonInv] using ⟨h1, h2, h3, h4⟩
  · refine ⟨?_, ?_, ?_, ?_⟩
    · simpa [UsbCableInv, signal_args_append, signal_args, Sent.signalArg?] using h1
    · simpa [ChargerInv, signal_args_append, signal_args, Sent.signalArg?] using h2
    · right
      simp [signal_args_append, signal_args, Sent.signalArg?]
    · simpa [BatteryLevelInv, signal_args_append, signal_args, Sent.signalArg?] using h4

/-- A broadcast attempt on the battery level channel, the append succeeding,
keeps the four channel relations. -/
theorem common_inv_send_battery_level (env : CommonEnv) (s : CommonState)
    (h : List Sent) (hinv : CommonInv env s h) :
    CommonInv env (common_dbus_send_battery_level env s none true).1
      (h ++ (common_dbus_send_battery_level env s none true).2) := by
  obtain ⟨h1, h2, h3, h4⟩ := hinv
  rw [send_battery_level_none]
  simp only [if_true]
  split_ifs with hc
  · simpa [CommonInv] using ⟨h1, h2, h3, h4⟩
  · refine ⟨?_, ?_, ?_, ?_⟩
    · simpa [UsbCableInv, signal_args_append, signal_args, Sent.signalArg?] using h1
    · simpa [ChargerInv, signal_args_append, signal_args, Sent.signalArg?] using h2
    · simpa [BatteryStatusInv, signal_args_append, signal_args, Sent.signalArg?] using h3
    · right
      simp [signal_args_append, signal_args, Sent.signalArg?]

/-- A delivery through `common_datapipe_charger_state_cb`, the append succeeding,
keeps the four channel relations, provided the renderer returns string
constants. -/
theorem common_inv_datapipe_charger_state (env : CommonEnv)
    (hr : StringConstants env.charger_state_to_dbus) (s : CommonState)
    (h : List Sent) (v : charger_state_t) (hinv : CommonInv env s h) :
    CommonInv env (common_datapipe_charger_state_cb env s v true).1
      (h ++ (common_datapipe_charger_state_cb env s v true).2) := by
  by_cases hv : s.charger_state = v
  · rw [datapipe_charger_state_same env s v true hv]
    simpa using hinv
  · obtain ⟨h1, h2, h3, h4⟩ := hinv
    unfold common_datapipe_charger_state_cb
    simp only [send_charger_state_none, if_true]
    rw [if_neg (fun e => hv e.symm)]
    split_ifs with hc
    · refine ⟨?_, ?_, ?_, ?_⟩
      · simpa [UsbCableInv] using h1
      · rcases h2 with ⟨a, b⟩ | ⟨a, b⟩
        · left
          exact ⟨by simpa using a, b⟩
        · right
          have e : (env.charger_state_to_dbus s.charger_state).addr = (env.charger_state_to_dbus v).addr :=
            b.symm.trans hc
          have t := (hr _ _).mp e
          refine ⟨?_, hc⟩
          simpa [← t] using a
      · simpa [BatteryStatusInv] using h3
      · simpa [BatteryLevelInv] using h4
    · refine ⟨?_, ?_, ?_, ?_⟩
      · simpa [UsbCableInv, signal_args_append, signal_args, Sent.signalArg?] using h1
      · right
        simp [signal_args_append, signal_args, Sent.signalArg?]
      · simpa [BatteryStatusInv, signal_args_append, signal_args, Sent.signalArg?] using h3
      · simpa [BatteryLevelInv, signal_args_append, signal_args, Sent.signalArg?] using h4

/-- A delivery through `common_datapipe_battery_status_cb`, the append succeeding,
keeps the four channel relations, provided the renderer returns string
constants. -/
theorem common_inv_datapipe_battery_status (env : CommonEnv)
    (hr : StringConstants env.battery_status_to_dbus) (s : CommonState)
    (h : List Sent) (v : battery_status_t) (hinv : CommonInv env s h) :
    CommonInv env (common_datapipe_battery_status_cb env s v true).1
      (h ++ (common_datapipe_battery_status_cb env s v true).2) := by
  by_cases hv : s.battery_status = v
  · rw [datapipe_battery_status_same env s v true hv]
    simpa using hinv
  · obtain ⟨h1, h2, h3, h4⟩ := hinv
    unfold common_datapipe_battery_status_cb
    simp only [send_battery_status_none, if_true]
    rw [if_neg (fun e => hv e.symm)]
    split_ifs with hc
    · refine ⟨?_, ?_, ?_, ?_⟩
      · simpa [UsbCableInv] using h1
      · simpa [ChargerInv] using h2
      · rcases h3 with ⟨a, b⟩ | ⟨a, b⟩
        · left
          exact ⟨by simpa using a, b⟩
        · right
          have e : (env.battery_status_to_dbus s.battery_status).addr = (env.battery_status_to_dbus v).addr :=
            b.symm.trans hc
          have t := (hr _ _).mp e
          refine ⟨?_, hc⟩
          simpa [← t] using a
      · simpa [BatteryLevelInv] using h4
    · refine ⟨?_, ?_, ?_, ?_⟩
      · simpa [UsbCableInv, signal_args_append, signal_args, Sent.signalArg?] using h1
      · simpa [ChargerInv, signal_args_append, signal_args, Sent.signalArg?] using h2
      · right
        simp [signal_args_append, signal_args, Sent.signalArg?]
      · simpa [BatteryLevelInv, signal_args_append, signal_args, Sent.signalArg?] using h4

/-- A delivery through `common_datapipe_battery_level_cb`, the append
succeeding, keeps the four channel relations. -/
theorem common_inv_datapipe_battery_level (env : CommonEnv) (s : CommonState)
    (h : List Sent) (v : Int) (hinv : CommonInv env s h) :
    CommonInv env (common_datapipe_battery_level_cb env s v true).1
      (h ++ (common_datapipe_battery_level_cb env s v true).2) := by
  by_cases hv : s.battery_level = v
  · rw [datapipe_battery_level_same env s v true hv]
    simpa using hinv
  · obtain ⟨h1, h2, h3, h4⟩ := hinv
    unfold common_datapipe_battery_level_cb
    simp only [send_battery_level_none, if_true]
    rw [if_neg (fun e => hv e.symm)]
    split_ifs with hc
    · refine ⟨?_, ?_, ?_, ?_⟩
      · simpa [UsbCableInv] using h1
      · simpa [ChargerInv] using h2
      · simpa [BatteryStatusInv] using h3
      · rcases h4 with ⟨a, b⟩ | ⟨a, b⟩
        · left
          exact ⟨by simpa using a, b⟩
        · right
          have e : battery_level_value env s.battery_level = battery_level_value env v :=
            b.symm.trans hc
          refine ⟨?_, hc⟩
          simpa [← e] using a
    · refine ⟨?_, ?_, ?_, ?_⟩
      · simpa [UsbCableInv, signal_args_append, signal_args, Sent.signalArg?] using h1
      · simpa [ChargerInv, signal_args_append, signal_args, Sent.signalArg?] using h2
      · simpa [BatteryStatusInv, signal_args_append, signal_args, Sent.signalArg?] using h3
      · right
        simp [signal_args_append, signal_args, Sent.signalArg?]

/-- A delivery through `common_datapipe_usb_cable_state_cb`, the append
succeeding, keeps the four channel relations, provided the renderer returns
string constants. -/
theorem common_inv_datapipe_usb_cable_state (env : CommonEnv)
    (hr : StringConstants env.usb_cable_state_to_dbus) (s : CommonState)
    (h : List Sent) (v : usb_cable_state_t) (hinv : CommonInv env s h) :
    CommonInv env (common_datapipe_usb_cable_state_cb env s v true).1
      (h ++ (common_datapipe_usb_cable_state_cb env s v true).2) := by
  by_cases hv : s.usb_cable_state = v
  · rw [datapipe_usb_cable_state_same env s v true hv]
    simpa using hinv
  · obtain ⟨h1, h2, h3, h4⟩ := hinv
    unfold common_datapipe_usb_cable_state_cb
    simp only [send_usb_cable_state_none, if_true]
    rw [if_neg (fun e => hv e.symm)]
    split_ifs with ht hc
    · refine ⟨?_, ?_, ?_, ?_⟩
      · rcases h1 with ⟨a, b⟩ | ⟨a, b⟩
        · left
          exact ⟨by simpa using a, b⟩
        · right
          refine ⟨?_, ?_⟩
          · simpa [← ht] using a
          · exact b.trans ((hr _ _).mpr ht)
      · simpa [ChargerInv] using h2
      · simpa [BatteryStatusInv] using h3
      · simpa [BatteryLevelInv] using h4
    · refine ⟨?_, ?_, ?_, ?_⟩
      · rcases h1 with ⟨a, b⟩ | ⟨a, b⟩
        · left
          exact ⟨by simpa using a, b⟩
        · right
          have e : (env.usb_cable_state_to_dbus s.usb_cable_state).addr
              = (env.usb_cable_state_to_dbus v).addr := b.symm.trans hc
          have t := (hr _ _).mp e
          refine ⟨?_, hc⟩
          simpa [← t] using a
      · simpa [ChargerInv] using h2
      · simpa [BatteryStatusInv] using h3
      · simpa [BatteryLevelInv] using h4
    · refine ⟨?_, ?_, ?_, ?_⟩
      · right
        simp [signal_args_append, signal_args, Sent.signalArg?]
      · simpa [ChargerInv, signal_args_append, signal_args, Sent.signalArg?] using h2
      · simpa [BatteryStatusInv, signal_args_append, signal_args, Sent.signalArg?] using h3
      · simpa [BatteryLevelInv, signal_args_append, signal_args, Sent.signalArg?] using h4

/-- The four channel relations do not look at the timer id. -/
theorem common_inv_initial_id (env : CommonEnv) (s : CommonState) (h : List Sent)
    (n : Nat) (hinv : CommonInv env s h) :
    CommonInv env { s with common_dbus_initial_id := n } h := by
  simpa [CommonInv, UsbCableInv, ChargerInv, BatteryStatusInv, BatteryLevelInv] using hinv

/-- The startup timer callback, the appends succeeding, keeps the four channel
relations. -/
theorem common_inv_initial_cb (env : CommonEnv) (s : CommonState)
    (h : List Sent) (hinv : CommonInv env s h) :
    CommonInv env (common_dbus_initial_cb env s true true true true).1
      (h ++ (common_dbus_initial_cb env s true true true true).2) := by
  have k1 := common_inv_send_usb_cable_state env s h hinv
  have k2 := common_inv_send_charger_state env _ _ k1
  have k3 := common_inv_send_battery_status env _ _ k2
  have k4 := common_inv_send_battery_level env _ _ k3
  have k5 := common_inv_initial_id env _ _ 0 k4
  simpa [common_dbus_initial_cb, List.append_assoc] using k5

/-- A reply adds nothing to the signals. -/
theorem signal_args_reply (name : SignalName) (h : List Sent) (r : MethodCall) (a : Arg) :
    signal_args name (h ++ [Sent.reply r a]) = signal_args name h := by
  simp [signal_args_append, signal_args, Sent.signalArg?]

/-- Messages without signals keep the four channel relations when the state
stays. -/
theorem common_inv_no_signal (env : CommonEnv) (s : CommonState) (h o : List Sent)
    (ho : ∀ name, signal_args name o = []) (hinv : CommonInv env s h) :
    CommonInv env s (h ++ o) := by
  simpa [CommonInv, UsbCableInv, ChargerInv, BatteryStatusInv, BatteryLevelInv,
    signal_args_append, ho] using hinv

/-- The four query handlers leave the state alone and send no signal. -/
theorem common_get_cb_no_signal (env : CommonEnv) (s : CommonState) (req : MethodCall)
    (ok : Bool) :
    ((common_dbus_get_usb_cable_state_cb env s req ok).1 = s ∧
      ∀ name, signal_args name (common_dbus_get_usb_cable_state_cb env s req ok).2 = []) ∧
    ((common_dbus_get_charger_state_cb env s req ok).1 = s ∧
      ∀ name, signal_args name (common_dbus_get_charger_state_cb env s req ok).2 = []) ∧
    ((common_dbus_get_battery_status_cb env s req ok).1 = s ∧
      ∀ name, signal_args name (common_dbus_get_battery_status_cb env s req ok).2 = []) ∧
    ((common_dbus_get_battery_level_cb env s req ok).1 = s ∧
      ∀ name, signal_args name (common_dbus_get_battery_level_cb env s req ok).2 = []) := by
  refine ⟨?_, ?_, ?_, ?_⟩
  · unfold common_dbus_get_usb_cable_state_cb
    rw [send_usb_cable_state_some]
    cases ok <;> split_ifs <;> simp [signal_args, Sent.signalArg?]
  · unfold common_dbus_get_charger_state_cb
    rw [send_charger_state_some]
    cases ok <;> split_ifs <;> simp [signal_args, Sent.signalArg?]
  · unfold common_dbus_get_battery_status_cb
    rw [send_battery_status_some]
    cases ok <;> split_ifs <;> simp [signal_args, Sent.signalArg?]
  · unfold common_dbus_get_battery_level_cb
    rw [send_battery_level_some]
    cases ok <;> split_ifs <;> simp [signal_args, Sent.signalArg?]

/-- Every call into `mce-common.c`, the appends succeeding, keeps the four
channel relations, provided the three renderers return string constants. -/
theorem common_inv_step (env : CommonEnv)
    (hu : StringConstants env.usb_cable_state_to_dbus)
    (hc : StringConstants env.charger_state_to_dbus)
    (hb : StringConstants env.battery_status_to_dbus)
    (s : CommonState) (h : List Sent) (e : CommonEvent) (hinv : CommonInv env s h) :
    CommonInv env (common_step env true s e).1 (h ++ (common_step env true s e).2) := by
  cases e with
  | usb_cable_state data => exact common_inv_datapipe_usb_cable_state env hu s h data hinv
  | charger_state data => exact common_inv_datapipe_charger_state env hc s h data hinv
  | battery_status data => exact common_inv_datapipe_battery_status env hb s h data hinv
  | battery_level data => exact common_inv_datapipe_battery_level env s h data hinv
  | initial_timer => exact common_inv_initial_cb env s h hinv
  | get_usb_cable_state req =>
    have k := (common_get_cb_no_signal env s req true).1
    simp only [common_step]
    rw [k.1]
    exact common_inv_no_signal env s h _ k.2 hinv
  | get_charger_state req =>
    have k := (common_get_cb_no_signal env s req true).2.1
    simp only [common_step]
    rw [k.1]
    exact common_inv_no_signal env s h _ k.2 hinv
  | get_battery_status req =>
    have k := (common_get_cb_no_signal env s req true).2.2.1
    simp only [common_step]
    rw [k.1]
    exact common_inv_no_signal env s h _ k.2 hinv
  | get_battery_level req =>
    have k := (common_get_cb_no_signal env s req true).2.2.2
    simp only [common_step]
    rw [k.1]
    exact common_inv_no_signal env s h _ k.2 hinv

/-- Every sequence of calls into `mce-common.c`, the appends succeeding, keeps
the four channel relations, provided the three renderers return string
constants. -/
theorem common_inv_run (env : CommonEnv)
    (hu : StringConstants env.usb_cable_state_to_dbus)
    (hc : StringConstants env.charger_state_to_dbus)
    (hb : StringConstants env.battery_status_to_dbus)
    (evs : List CommonEvent) :
    ∀ (s : CommonState) (h : List Sent), CommonInv env s h →
      CommonInv env (common_run env true s evs).1 (h ++ (common_run env true s evs).2) := by
  induction evs with
  | nil =>
    intro s h hinv
    simpa [common_run] using hinv
  | cons e es ih =>
    intro s h hinv
    have h1 := common_inv_step env hu hc hb s h e hinv
    have h2 := ih _ _ h1
    simpa [common_run, List.append_assoc] using h2

/-- At process start the four channel relations hold. -/
theorem common_inv_initial (env : CommonEnv) (u b l : Int) :
    CommonInv env (common_initial_state env u b l) [] := by
  simp [CommonInv, UsbCableInv, ChargerInv, BatteryStatusInv, BatteryLevelInv,
    common_initial_state, signal_args]

/-- The reply of each query handler to a call that expects one, the append
succeeding. -/
theorem common_get_cb_reply (env : CommonEnv) (s : CommonState) (serial : Nat) :
    (common_dbus_get_usb_cable_state_cb env s ⟨serial, false⟩ true).2 =
      [Sent.reply ⟨serial, false⟩
        (Arg.string (env.usb_cable_state_to_dbus s.usb_cable_state).text)] ∧
    (common_dbus_get_charger_state_cb env s ⟨serial, false⟩ true).2 =
      [Sent.reply ⟨serial, false⟩
        (Arg.string (env.charger_state_to_dbus s.charger_state).text)] ∧
    (common_dbus_get_battery_status_cb env s ⟨serial, false⟩ true).2 =
      [Sent.reply ⟨serial, false⟩
        (Arg.string (env.battery_status_to_dbus s.battery_status).text)] ∧
    (common_dbus_get_battery_level_cb env s ⟨serial, false⟩ true).2 =
      [Sent.reply ⟨serial, false⟩
        (Arg.int32 (battery_level_value env s.battery_level))] := by
  simp [common_dbus_get_usb_cable_state_cb, common_dbus_get_charger_state_cb,
    common_dbus_get_battery_status_cb, common_dbus_get_battery_level_cb,
    send_usb_cable_state_some, send_charger_state_some, send_battery_status_some,
    send_battery_level_some]

/-- The sample environment renders cable states to string constants. -/
theorem sampleEnv_usb_cable_state_constants :
    StringConstants sampleEnv.usb_cable_state_to_dbus := by
  intro a b
  simp only [sampleEnv]
  split_ifs <;> simp

/-- The sample environment renders charger states to string constants. -/
theorem sampleEnv_charger_state_constants :
    StringConstants sampleEnv.charger_state_to_dbus := by
  intro a b
  cases a <;> cases b <;> simp [sampleEnv]

/-- The sample environment renders battery statuses to string constants. -/
theorem sampleEnv_battery_status_constants :
    StringConstants sampleEnv.battery_status_to_dbus := by
  intro a b
  simp only [sampleEnv]
  split_ifs <;> simp

/-- C15: in every state reached from the initial state by a sequence of
datapipe callbacks, startup timer callbacks and queries, the appends
succeeding and the renderers returning string constants, each channel's `last`
is either still its initial value or the rendering of the current cached
value; while no signal has been sent on a channel its `last` is the initial
value; and once a signal has been sent on a channel, `last` is the rendering
of the current cached value and the reply to a query carries exactly the value
carried by the channel's most recent signal. -/
theorem queries_consistent_with_last_broadcast (env : CommonEnv)
    (hu : StringConstants env.usb_cable_state_to_dbus)
    (hc : StringConstants env.charger_state_to_dbus)
    (hb : StringConstants env.battery_status_to_dbus)
    (u b l : Int) (evs : List CommonEvent) (serial : Nat) :
    (((common_run env true (common_initial_state env u b l) evs).1.usb_cable_state_last = 0 ∨
        (common_run env true (common_initial_state env u b l) evs).1.usb_cable_state_last = (env.usb_cable_state_to_dbus (common_run env true (common_initial_state env u b l) evs).1.usb_cable_state).addr) ∧
      (signal_args SignalName.MCE_USB_CABLE_STATE_SIG (common_run env true (common_initial_state env u b l) evs).2 = [] →
        (common_run env true (common_initial_state env u b l) evs).1.usb_cable_state_last = 0) ∧
      (∀ a : Arg,
        (signal_args SignalName.MCE_USB_CABLE_STATE_SIG (common_run env true (common_initial_state env u b l) evs).2).getLast? = some a →
        (common_run env true (common_initial_state env u b l) evs).1.usb_cable_state_last = (env.usb_cable_state_to_dbus (common_run env true (common_initial_state env u b l) evs).1.usb_cable_state).addr ∧
        a = Arg.string (env.usb_cable_state_to_dbus (common_run env true (common_initial_state env u b l) evs).1.usb_cable_state).text ∧
        (common_dbus_get_usb_cable_state_cb env (common_run env true (common_initial_state env u b l) evs).1 ⟨serial, false⟩ true).2 =
          [Sent.reply ⟨serial, false⟩ a])) ∧
    (((common_run env true (common_initial_state env u b l) evs).1.charger_state_last = 0 ∨
        (common_run env true (common_initial_state env u b l) evs).1.charger_state_last = (env.charger_state_to_dbus (common_run env true (common_initial_state env u b l) evs).1.charger_state).addr) ∧
      (signal_args SignalName.MCE_CHARGER_STATE_SIG (common_run env true (common_initial_state env u b l) evs).2 = [] →
        (common_run env true (common_initial_state env u b l) evs).1.charger_state_last = 0) ∧
      (∀ a : Arg,
        (signal_args SignalName.MCE_CHARGER_STATE_SIG (common_run env true (common_initial_state env u b l) evs).2).getLast? = some a →
        (common_run env true (common_initial_state env u b l) evs).1.charger_state_last = (env.charger_state_to_dbus (common_run env true (common_initial_state env u b l) evs).1.charger_state).addr ∧
        a = Arg.string (env.charger_state_to_dbus (common_run env true (common_initial_state env u b l) evs).1.charger_state).text ∧
        (common_dbus_get_charger_state_cb env (common_run env true (common_initial_state env u b l) evs).1 ⟨serial, false⟩ true).2 =
          [Sent.reply ⟨serial, false⟩ a])) ∧
    (((common_run env true (common_initial_state env u b l) evs).1.battery_status_last = 0 ∨
        (common_run env true (common_initial_state env u b l) evs).1.battery_status_last = (env.battery_status_to_dbus (common_run env true (common_initial_state env u b l) evs).1.battery_status).addr) ∧
      (signal_args SignalName.MCE_BATTERY_STATUS_SIG (common_run env true (common_initial_state env u b l) evs).2 = [] →
        (common_run env true (common_initial_state env u b l) evs).1.battery_status_last = 0) ∧
      (∀ a : Arg,
        (signal_args SignalName.MCE_BATTERY_STATUS_SIG (common_run env true (common_initial_state env u b l) evs).2).getLast? = some a →
        (common_run env true (common_initial_state env u b l) evs).1.battery_status_last = (env.battery_status_to_dbus (common_run env true (common_initial_state env u b l) evs).1.battery_status).addr ∧
        a = Arg.string (env.battery_status_to_dbus (common_run env true (common_initial_state env u b l) evs).1.battery_status).text ∧
        (common_dbus_get_battery_status_cb env (common_run env true (common_initial_state env u b l) evs).1 ⟨serial, false⟩ true).2 =
          [Sent.reply ⟨serial, false⟩ a])) ∧
    (((common_run env true (common_initial_state env u b l) evs).1.battery_level_last = env.MCE_BATTERY_LEVEL_UNKNOWN - 1 ∨
        (common_run env true (common_initial_state env u b l) evs).1.battery_level_last = battery_level_value env (common_run env true (common_initial_state env u b l) evs).1.battery_level) ∧
      (signal_args SignalName.MCE_BATTERY_LEVEL_SIG (common_run env true (common_initial_state env u b l) evs).2 = [] →
        (common_run env true (common_initial_state env u b l) evs).1.battery_level_last = env.MCE_BATTERY_LEVEL_UNKNOWN - 1) ∧
      (∀ a : Arg,
        (signal_args SignalName.MCE_BATTERY_LEVEL_SIG (common_run env true (common_initial_state env u b l) evs).2).getLast? = some a →
        (common_run env true (common_initial_state env u b l) evs).1.battery_level_last = battery_level_value env (common_run env true (common_initial_state env u b l) evs).1.battery_level ∧
        a = Arg.int32 (battery_level_value env (common_run env true (common_initial_state env u b l) evs).1.battery_level) ∧
        (common_dbus_get_battery_level_cb env (common_run env true (common_initial_state env u b l) evs).1 ⟨serial, false⟩ true).2 =
          [Sent.reply ⟨serial, false⟩ a])) := by
  have inv := common_inv_run env hu hc hb evs _ _ (common_inv_initial env u b l)
  rw [List.nil_append] at inv
  obtain ⟨i1, i2, i3, i4⟩ := inv
  refine ⟨?_, ?_, ?_, ?_⟩
  · refine ⟨?_, ?_, ?_⟩
    · rcases i1 with ⟨a, b⟩ | ⟨a, b⟩
      · exact Or.inl b
      · exact Or.inr b
    · intro hnil
      rcases i1 with ⟨a, b⟩ | ⟨a, b⟩
      · exact b
      · rw [hnil] at a
        simp at a
    · intro x hx
      rcases i1 with ⟨a, b⟩ | ⟨a, b⟩
      · rw [a] at hx
        simp at hx
      · rw [a] at hx
        have hx2 := Option.some.inj hx
        subst hx2
        exact ⟨b, rfl, (common_get_cb_reply env _ serial).1⟩
  · refine ⟨?_, ?_, ?_⟩
    · rcases i2 with ⟨a, b⟩ | ⟨a, b⟩
      · exact Or.inl b
      · exact Or.inr b
    · intro hnil
      rcases i2 with ⟨a, b⟩ | ⟨a, b⟩
      · exact b
      · rw [hnil] at a
        simp at a
    · intro x hx
      rcases i2 with ⟨a, b⟩ | ⟨a, b⟩
      · rw [a] at hx
        simp at hx
      · rw [a] at hx
        have hx2 := Option.some.inj hx
        subst hx2
        exact ⟨b, rfl, (common_get_cb_reply env _ serial).2.1⟩
  · refine ⟨?_, ?_, ?_⟩
    · rcases i3 with ⟨a, b⟩ | ⟨a, b⟩
      · exact Or.inl b
      · exact Or.inr b
    · intro hnil
      rcases i3 with ⟨a, b⟩ | ⟨a, b⟩
      · exact b
      · rw [hnil] at a
        simp at a
    · intro x hx
      rcases i3 with ⟨a, b⟩ | ⟨a, b⟩
      · rw [a] at hx
        simp at hx
      · rw [a] at hx
        have hx2 := Option.some.inj hx
        subst hx2
        exact ⟨b, rfl, (common_get_cb_reply env _ serial).2.2.1⟩
  · refine ⟨?_, ?_, ?_⟩
    · rcases i4 with ⟨a, b⟩ | ⟨a, b⟩
      · exact Or.inl b
      · exact Or.inr b
    · intro hnil
      rcases i4 with ⟨a, b⟩ | ⟨a, b⟩
      · exact b
      · rw [hnil] at a
        simp at a
    · intro x hx
      rcases i4 with ⟨a, b⟩ | ⟨a, b⟩
      · rw [a] at hx
        simp at hx
      · rw [a] at hx
        have hx2 := Option.some.inj hx
        subst hx2
        exact ⟨b, rfl, (common_get_cb_reply env _ serial).2.2.2⟩

/-- C15, evaluated: in the sample environment, after the cable state went to
1 (signal "connected"), then to 2 (same string, no signal), the cable query is
answered "connected", the value of the most recent cable signal. -/
theorem queries_consistent_sample :
    (common_dbus_get_usb_cable_state_cb sampleEnv
        (common_run sampleEnv true (common_initial_state sampleEnv (-1) (-1) 100)
          [CommonEvent.usb_cable_state 1, CommonEvent.initial_timer,
           CommonEvent.usb_cable_state 2]).1 ⟨7, false⟩ true).2 =
      [Sent.reply ⟨7, false⟩ (Arg.string "connected")] :=
  ((queries_consistent_with_last_broadcast sampleEnv
      sampleEnv_usb_cable_state_constants sampleEnv_charger_state_constants
      sampleEnv_battery_status_constants (-1) (-1) 100
      [CommonEvent.usb_cable_state 1, CommonEvent.initial_timer,
       CommonEvent.usb_cable_state 2] 7).1.2.2
    (Arg.string "connected") (by decide)).2.2

/-- Registrations appended to a list and then removed one by one, in any
order, leave the list as it was up to order. -/
theorem remove_all_append_perm {α : Type} [DecidableEq α] (l xs ys : List α)
    (h : ys.Perm xs) : (ys.foldl remove_one (l ++ xs)).Perm l := by
  show (List.foldl List.erase (l ++ xs) ys).Perm l
  rw [← List.diff_eq_foldl]
  apply Multiset.coe_eq_coe.mp
  rw [← Multiset.coe_sub, ← Multiset.coe_add, Multiset.coe_eq_coe.mpr h]
  exact add_tsub_cancel_right _ _

/-- A fresh handle is above every handle in use. -/
theorem lt_fresh_id (ids : List Nat) : ∀ i ∈ ids, i < fresh_id ids := by
  induction ids with
  | nil => simp
  | cons a as ih =>
    intro i hi
    unfold fresh_id at *
    simp only [List.foldr_cons]
    have m1 := le_max_left a (List.foldr max 0 as)
    have m2 := le_max_right a (List.foldr max 0 as)
    rcases List.mem_cons.mp hi with h | h
    · subst h
      omega
    · have := ih i h
      omega

/-- A fresh handle is never 0. -/
theorem fresh_id_ne_zero (ids : List Nat) : fresh_id ids = 0 ↔ False := by
  unfold fresh_id
  simp

/-- Removing by a handle above every handle of `l` leaves `l` alone. -/
theorem filter_fresh {β : Type} (l m : List (Nat × β)) (i : Nat)
    (hl : ∀ e ∈ l, e.1 < i) :
    (l ++ m).filter (fun e => decide (e.1 ≠ i)) =
      l ++ m.filter (fun e => decide (e.1 ≠ i)) := by
  rw [List.filter_append]
  congr 1
  apply List.filter_eq_self.mpr
  intro e he
  have := hl e he
  simp
  omega

/-- One registration under a fresh handle, removed by that handle. -/
theorem filter_one {β : Type} (l : List (Nat × β)) (i : Nat) (b : β)
    (h : ∀ e ∈ l, e.1 < i) :
    List.filter (fun e => decide (e.1 ≠ i)) (l ++ [(i, b)]) = l := by
  rw [filter_fresh _ _ _ h]
  simp

/-- Three registrations under increasing fresh handles, removed by their
handles. -/
theorem filter_three {β : Type} (l : List (Nat × β)) (i1 i2 i3 : Nat) (b1 b2 b3 : β)
    (h1 : ∀ e ∈ l, e.1 < i1) (a12 : i1 < i2) (a23 : i2 < i3) :
    List.filter (fun e => decide (e.1 ≠ i3))
      (List.filter (fun e => decide (e.1 ≠ i2))
        (List.filter (fun e => decide (e.1 ≠ i1))
          (l ++ [(i1, b1)] ++ [(i2, b2)] ++ [(i3, b3)]))) = l := by
  have h1b : ∀ e ∈ l, e.1 < i2 := fun e he => lt_trans (h1 e he) a12
  have h1c : ∀ e ∈ l, e.1 < i3 := fun e he => lt_trans (h1b e he) a23
  simp only [List.append_assoc]
  rw [filter_fresh _ _ _ h1, filter_fresh _ _ _ h1b, filter_fresh _ _ _ h1c]
  have n12 : i1 ≠ i2 := by omega
  have n13 : i1 ≠ i3 := by omega
  have n23 : i2 ≠ i3 := by omega
  simp [List.filter_cons, n12, n13, n23, Ne.symm n12, Ne.symm n13, Ne.symm n23]

/-- The registrations after `g_module_check_init`: those present before,
followed by the module's own. -/
theorem g_module_check_init_registrations (s : PsmState) (reg : Registrations)
    (store : SettingsStore) :
    (g_module_check_init s reg store).2.output_triggers =
      reg.output_triggers ++
        [(Datapipe.battery_level_pipe, Callback.battery_level_trigger),
         (Datapipe.charger_state_pipe, Callback.charger_state_trigger),
         (Datapipe.thermal_state_pipe, Callback.thermal_state_trigger)] ∧
    (g_module_check_init s reg store).2.setting_notifiers =
      reg.setting_notifiers ++
        [((g_module_check_init s reg store).1.power_saving_mode_setting_id,
            SettingKey.MCE_SETTING_EM_ENABLE_PSM, Callback.psm_setting_cb),
         ((g_module_check_init s reg store).1.force_psm_setting_id,
            SettingKey.MCE_SETTING_EM_FORCED_PSM, Callback.psm_setting_cb),
         ((g_module_check_init s reg store).1.psm_threshold_setting_id,
            SettingKey.MCE_SETTING_EM_PSM_THRESHOLD, Callback.psm_setting_cb)] ∧
    (g_module_check_init s reg store).2.dbus_handlers =
      reg.dbus_handlers ++
        [(HandlerArray.psm_dbus_handlers, 0), (HandlerArray.psm_dbus_handlers, 1)] ∧
    (g_module_check_init s reg store).2.timers = reg.timers := by
  simp [g_module_check_init, datapipe_add_output_trigger, mce_setting_notifier_add,
    mce_psm_init_dbus, mce_dbus_handler_register_array, List.range_succ]

/-- The registrations after `g_module_check_init` followed by
`g_module_unload`. -/
theorem g_module_unload_after_init (s : PsmState) (reg : Registrations)
    (store : SettingsStore) :
    (g_module_unload (g_module_check_init s reg store).1
        (g_module_check_init s reg store).2).2.output_triggers.Perm reg.output_triggers ∧
    (g_module_unload (g_module_check_init s reg store).1
        (g_module_check_init s reg store).2).2.setting_notifiers = reg.setting_notifiers ∧
    (g_module_unload (g_module_check_init s reg store).1
        (g_module_check_init s reg store).2).2.dbus_handlers.Perm reg.dbus_handlers ∧
    (g_module_unload (g_module_check_init s reg store).1
        (g_module_check_init s reg store).2).2.timers = reg.timers := by
  refine ⟨?_, ?_, ?_, ?_⟩
  · simp only [g_module_check_init, g_module_unload, datapipe_add_output_trigger,
      mce_setting_notifier_add, mce_psm_init_dbus, mce_dbus_handler_register_array,
      datapipe_remove_output_trigger, mce_setting_notifier_remove, mce_psm_quit_dbus,
      mce_dbus_handler_unregister_array]
    have key := remove_all_append_perm reg.output_triggers
      [(Datapipe.battery_level_pipe, Callback.battery_level_trigger),
       (Datapipe.charger_state_pipe, Callback.charger_state_trigger),
       (Datapipe.thermal_state_pipe, Callback.thermal_state_trigger)]
      [(Datapipe.thermal_state_pipe, Callback.thermal_state_trigger),
       (Datapipe.battery_level_pipe, Callback.battery_level_trigger),
       (Datapipe.charger_state_pipe, Callback.charger_state_trigger)] (by decide)
    simpa only [List.foldl_cons, List.foldl_nil, List.append_assoc, List.singleton_append,
      List.cons_append, List.nil_append] using key
  · simp only [g_module_check_init, g_module_unload, datapipe_add_output_trigger,
      mce_setting_notifier_add, mce_psm_init_dbus, mce_dbus_handler_register_array,
      datapipe_remove_output_trigger, mce_setting_notifier_remove, mce_psm_quit_dbus,
      mce_dbus_handler_unregister_array, fresh_id_ne_zero, if_false]
    exact filter_three _ _ _ _ _ _ _
      (fun e he => lt_fresh_id _ _ (List.mem_map_of_mem Prod.fst he))
      (lt_fresh_id _ _ (by simp)) (lt_fresh_id _ _ (by simp))
  · simp only [g_module_check_init, g_module_unload, datapipe_add_output_trigger,
      mce_setting_notifier_add, mce_psm_init_dbus, mce_dbus_handler_register_array,
      datapipe_remove_output_trigger, mce_setting_notifier_remove, mce_psm_quit_dbus,
      mce_dbus_handler_unregister_array]
    exact remove_all_append_perm _ _ _ (List.Perm.refl _)
  · simp only [g_module_check_init, g_module_unload, datapipe_add_output_trigger,
      mce_setting_notifier_add, mce_psm_init_dbus, mce_dbus_handler_register_array,
      datapipe_remove_output_trigger, mce_setting_notifier_remove, mce_psm_quit_dbus,
      mce_dbus_handler_unregister_array]

/-- The registrations and the timer id after `mce_common_init` in a module
whose startup timer is not pending: those present before, followed by the
module's own, among them the startup timer under a fresh id that is stored in
`common_dbus_initial_id`. -/
theorem mce_common_init_registrations (c : CommonState) (reg : Registrations)
    (hc : c.common_dbus_initial_id = 0) :
    (mce_common_init c reg).2.output_triggers =
      reg.output_triggers ++ common_datapipe_handlers ∧
    (mce_common_init c reg).2.setting_notifiers = reg.setting_notifiers ∧
    (mce_common_init c reg).2.dbus_handlers =
      reg.dbus_handlers ++
        (List.range 8).map (fun i => (HandlerArray.common_dbus_handlers, i)) ∧
    (mce_common_init c reg).2.timers =
      reg.timers ++ [((mce_common_init c reg).1.common_dbus_initial_id,
                      Callback.common_dbus_initial_cb)] ∧
    (mce_common_init c reg).1.common_dbus_initial_id =
      fresh_id (reg.timers.map Prod.fst) := by
  simp [mce_common_init, mce_common_quit, common_dbus_init, common_dbus_quit,
      common_datapipe_init, common_datapipe_quit, datapipe_bindings_init,
      datapipe_bindings_quit, common_datapipe_handlers, datapipe_add_output_trigger,
      datapipe_remove_output_trigger, mce_dbus_handler_register_array,
      mce_dbus_handler_unregister_array, g_timeout_add, g_source_remove,
      List.foldl_cons, List.foldl_nil, hc]

/-- The registrations and the timer id after `mce_common_init` followed by
`mce_common_quit`, in a module whose startup timer was not pending. -/
theorem mce_common_quit_after_init (c : CommonState) (reg : Registrations)
    (hc : c.common_dbus_initial_id = 0) :
    (mce_common_quit (mce_common_init c reg).1
        (mce_common_init c reg).2).2.output_triggers.Perm reg.output_triggers ∧
    (mce_common_quit (mce_common_init c reg).1
        (mce_common_init c reg).2).2.setting_notifiers = reg.setting_notifiers ∧
    (mce_common_quit (mce_common_init c reg).1
        (mce_common_init c reg).2).2.dbus_handlers.Perm reg.dbus_handlers ∧
    (mce_common_quit (mce_common_init c reg).1
        (mce_common_init c reg).2).2.timers = reg.timers ∧
    (mce_common_quit (mce_common_init c reg).1
        (mce_common_init c reg).2).1.common_dbus_initial_id = 0 := by
  refine ⟨?_, ?_, ?_, ?_, ?_⟩
  · simp only [mce_common_init, mce_common_quit, common_dbus_init, common_dbus_quit,
      common_datapipe_init, common_datapipe_quit, datapipe_bindings_init,
      datapipe_bindings_quit, common_datapipe_handlers, datapipe_add_output_trigger,
      datapipe_remove_output_trigger, mce_dbus_handler_register_array,
      mce_dbus_handler_unregister_array, g_timeout_add, g_source_remove,
      List.foldl_cons, List.foldl_nil, hc, if_true, fresh_id_ne_zero, ne_eq, not_false_eq_true]
    have key := remove_all_append_perm reg.output_triggers common_datapipe_handlers
      common_datapipe_handlers (List.Perm.refl _)
    simpa only [common_datapipe_handlers, List.foldl_cons, List.foldl_nil,
      List.append_assoc, List.singleton_append, List.cons_append, List.nil_append]
      using key
  · simp only [mce_common_init, mce_common_quit, common_dbus_init, common_dbus_quit,
      common_datapipe_init, common_datapipe_quit, datapipe_bindings_init,
      datapipe_bindings_quit, common_datapipe_handlers, datapipe_add_output_trigger,
      datapipe_remove_output_trigger, mce_dbus_handler_register_array,
      mce_dbus_handler_unregister_array, g_timeout_add, g_source_remove,
      List.foldl_cons, List.foldl_nil, hc, if_true, fresh_id_ne_zero, ne_eq, not_false_eq_true]
  · simp only [mce_common_init, mce_common_quit, common_dbus_init, common_dbus_quit,
      common_datapipe_init, common_datapipe_quit, datapipe_bindings_init,
      datapipe_bindings_quit, common_datapipe_handlers, datapipe_add_output_trigger,
      datapipe_remove_output_trigger, mce_dbus_handler_register_array,
      mce_dbus_handler_unregister_array, g_timeout_add, g_source_remove,
      List.foldl_cons, List.foldl_nil, hc, if_true, fresh_id_ne_zero, ne_eq, not_false_eq_true]
    exact remove_all_append_perm _ _ _ (List.Perm.refl _)
  · simp only [mce_common_init, mce_common_quit, common_dbus_init, common_dbus_quit,
      common_datapipe_init, common_datapipe_quit, datapipe_bindings_init,
      datapipe_bindings_quit, common_datapipe_handlers, datapipe_add_output_trigger,
      datapipe_remove_output_trigger, mce_dbus_handler_register_array,
      mce_dbus_handler_unregister_array, g_timeout_add, g_source_remove,
      List.foldl_cons, List.foldl_nil, hc, if_true, fresh_id_ne_zero, ne_eq, not_false_eq_true]
    exact filter_one _ _ _ (fun e he => lt_fresh_id _ _ (List.mem_map_of_mem Prod.fst he))
  · simp only [mce_common_init, mce_common_quit, common_dbus_init, common_dbus_quit,
      common_datapipe_init, common_datapipe_quit, datapipe_bindings_init,
      datapipe_bindings_quit, common_datapipe_handlers, datapipe_add_output_trigger,
      datapipe_remove_output_trigger, mce_dbus_handler_register_array,
      mce_dbus_handler_unregister_array, g_timeout_add, g_source_remove,
      List.foldl_cons, List.foldl_nil, hc, if_true, fresh_id_ne_zero, ne_eq, not_false_eq_true]

/-- The registrations and the timer id when the startup timer fires between
`mce_common_init` and `mce_common_quit`. -/
theorem mce_common_quit_after_timer (env : CommonEnv) (c : CommonState)
    (reg : Registrations) (ok1 ok2 ok3 ok4 : Bool) (hc : c.common_dbus_initial_id = 0) :
    (mce_common_quit (common_initial_timer_fires env (mce_common_init c reg).1 (mce_common_init c reg).2 ok1 ok2 ok3 ok4).1.1 (common_initial_timer_fires env (mce_common_init c reg).1 (mce_common_init c reg).2 ok1 ok2 ok3 ok4).1.2).2.output_triggers.Perm reg.output_triggers ∧
    (mce_common_quit (common_initial_timer_fires env (mce_common_init c reg).1 (mce_common_init c reg).2 ok1 ok2 ok3 ok4).1.1 (common_initial_timer_fires env (mce_common_init c reg).1 (mce_common_init c reg).2 ok1 ok2 ok3 ok4).1.2).2.setting_notifiers = reg.setting_notifiers ∧
    (mce_common_quit (common_initial_timer_fires env (mce_common_init c reg).1 (mce_common_init c reg).2 ok1 ok2 ok3 ok4).1.1 (common_initial_timer_fires env (mce_common_init c reg).1 (mce_common_init c reg).2 ok1 ok2 ok3 ok4).1.2).2.dbus_handlers.Perm reg.dbus_handlers ∧
    (mce_common_quit (common_initial_timer_fires env (mce_common_init c reg).1 (mce_common_init c reg).2 ok1 ok2 ok3 ok4).1.1 (common_initial_timer_fires env (mce_common_init c reg).1 (mce_common_init c reg).2 ok1 ok2 ok3 ok4).1.2).2.timers = reg.timers ∧
    (mce_common_quit (common_initial_timer_fires env (mce_common_init c reg).1 (mce_common_init c reg).2 ok1 ok2 ok3 ok4).1.1 (common_initial_timer_fires env (mce_common_init c reg).1 (mce_common_init c reg).2 ok1 ok2 ok3 ok4).1.2).1.common_dbus_initial_id = 0 := by
  refine ⟨?_, ?_, ?_, ?_, ?_⟩
  · simp only [mce_common_init, mce_common_quit, common_dbus_init, common_dbus_quit,
      common_datapipe_init, common_datapipe_quit, datapipe_bindings_init,
      datapipe_bindings_quit, common_datapipe_handlers, datapipe_add_output_trigger,
      datapipe_remove_output_trigger, mce_dbus_handler_register_array,
      mce_dbus_handler_unregister_array, g_timeout_add, g_source_remove,
      List.foldl_cons, List.foldl_nil, common_initial_timer_fires, common_dbus_initial_cb, hc, if_true, fresh_id_ne_zero, ne_eq, not_false_eq_true,
      not_true_eq_false, if_false]
    have key := remove_all_append_perm reg.output_triggers common_datapipe_handlers
      common_datapipe_handlers (List.Perm.refl _)
    simpa only [common_datapipe_handlers, List.foldl_cons, List.foldl_nil,
      List.append_assoc, List.singleton_append, List.cons_append, List.nil_append]
      using key
  · simp only [mce_common_init, mce_common_quit, common_dbus_init, common_dbus_quit,
      common_datapipe_init, common_datapipe_quit, datapipe_bindings_init,
      datapipe_bindings_quit, common_datapipe_handlers, datapipe_add_output_trigger,
      datapipe_remove_output_trigger, mce_dbus_handler_register_array,
      mce_dbus_handler_unregister_array, g_timeout_add, g_source_remove,
      List.foldl_cons, List.foldl_nil, common_initial_timer_fires, common_dbus_initial_cb, hc, if_true, fresh_id_ne_zero, ne_eq, not_false_eq_true,
      not_true_eq_false, if_false]
  · simp only [mce_common_init, mce_common_quit, common_dbus_init, common_dbus_quit,
      common_datapipe_init, common_datapipe_quit, datapipe_bindings_init,
      datapipe_bindings_quit, common_datapipe_handlers, datapipe_add_output_trigger,
      datapipe_remove_output_trigger, mce_dbus_handler_register_array,
      mce_dbus_handler_unregister_array, g_timeout_add, g_source_remove,
      List.foldl_cons, List.foldl_nil, common_initial_timer_fires, common_dbus_initial_cb, hc, if_true, fresh_id_ne_zero, ne_eq, not_false_eq_true,
      not_true_eq_false, if_false]
    exact remove_all_append_perm _ _ _ (List.Perm.refl _)
  · simp only [mce_common_init, mce_common_quit, common_dbus_init, common_dbus_quit,
      common_datapipe_init, common_datapipe_quit, datapipe_bindings_init,
      datapipe_bindings_quit, common_datapipe_handlers, datapipe_add_output_trigger,
      datapipe_remove_output_trigger, mce_dbus_handler_register_array,
      mce_dbus_handler_unregister_array, g_timeout_add, g_source_remove,
      List.foldl_cons, List.foldl_nil, common_initial_timer_fires, common_dbus_initial_cb, hc, if_true, fresh_id_ne_zero, ne_eq, not_false_eq_true,
      not_true_eq_false, if_false]
    exact filter_one _ _ _ (fun e he => lt_fresh_id _ _ (List.mem_map_of_mem Prod.fst he))
  · simp only [mce_common_init, mce_common_quit, common_dbus_init, common_dbus_quit,
      common_datapipe_init, common_datapipe_quit, datapipe_bindings_init,
      datapipe_bindings_quit, common_datapipe_handlers, datapipe_add_output_trigger,
      datapipe_remove_output_trigger, mce_dbus_handler_register_array,
      mce_dbus_handler_unregister_array, g_timeout_add, g_source_remove,
      List.foldl_cons, List.foldl_nil, common_initial_timer_fires, common_dbus_initial_cb, hc, if_true, fresh_id_ne_zero, ne_eq, not_false_eq_true,
      not_true_eq_false, if_false]

/-- C13: for both modules, from any registration state (with the startup
timer of `mce-common.c` not pending), init followed by teardown leaves the
datapipe output triggers, the settings notifiers, the D-Bus handlers and the
pending timers as they were before init, up to the order of the triggers and
handlers; while the module is attached the registrations present before are
all still there, followed by the module's own; the startup timer is pending
after `mce_common_init` under a non-zero id, and after `mce_common_quit` no
timer with that id is pending and `common_dbus_initial_id` is 0, whether the
timer has fired in between or not. -/
theorem init_then_teardown_restores (s : PsmState) (c : CommonState)
    (reg : Registrations) (store : SettingsStore) (env : CommonEnv)
    (ok1 ok2 ok3 ok4 : Bool) (hc : c.common_dbus_initial_id = 0) :
    ((g_module_unload (g_module_check_init s reg store).1 (g_module_check_init s reg store).2).2.output_triggers.Perm reg.output_triggers ∧
      (g_module_unload (g_module_check_init s reg store).1 (g_module_check_init s reg store).2).2.setting_notifiers = reg.setting_notifiers ∧
      (g_module_unload (g_module_check_init s reg store).1 (g_module_check_init s reg store).2).2.dbus_handlers.Perm reg.dbus_handlers ∧
      (g_module_unload (g_module_check_init s reg store).1 (g_module_check_init s reg store).2).2.timers = reg.timers) ∧
    (reg.output_triggers <+: (g_module_check_init s reg store).2.output_triggers ∧
      reg.setting_notifiers <+: (g_module_check_init s reg store).2.setting_notifiers ∧
      reg.dbus_handlers <+: (g_module_check_init s reg store).2.dbus_handlers ∧
      reg.timers = (g_module_check_init s reg store).2.timers) ∧
    ((mce_common_quit (mce_common_init c reg).1 (mce_common_init c reg).2).2.output_triggers.Perm reg.output_triggers ∧
      (mce_common_quit (mce_common_init c reg).1 (mce_common_init c reg).2).2.setting_notifiers = reg.setting_notifiers ∧
      (mce_common_quit (mce_common_init c reg).1 (mce_common_init c reg).2).2.dbus_handlers.Perm reg.dbus_handlers ∧
      (mce_common_quit (mce_common_init c reg).1 (mce_common_init c reg).2).2.timers = reg.timers ∧
      (mce_common_quit (mce_common_init c reg).1 (mce_common_init c reg).2).1.common_dbus_initial_id = 0) ∧
    (reg.output_triggers <+: (mce_common_init c reg).2.output_triggers ∧
      reg.setting_notifiers = (mce_common_init c reg).2.setting_notifiers ∧
      reg.dbus_handlers <+: (mce_common_init c reg).2.dbus_handlers ∧
      (mce_common_init c reg).2.timers =
        reg.timers ++ [((mce_common_init c reg).1.common_dbus_initial_id,
                        Callback.common_dbus_initial_cb)]) ∧
    ((mce_common_init c reg).1.common_dbus_initial_id ≠ 0 ∧
      ∀ e ∈ (mce_common_quit (mce_common_init c reg).1 (mce_common_init c reg).2).2.timers,
        e.1 ≠ (mce_common_init c reg).1.common_dbus_initial_id) ∧
    ((mce_common_quit (common_initial_timer_fires env (mce_common_init c reg).1 (mce_common_init c reg).2 ok1 ok2 ok3 ok4).1.1 (common_initial_timer_fires env (mce_common_init c reg).1 (mce_common_init c reg).2 ok1 ok2 ok3 ok4).1.2).2.output_triggers.Perm reg.output_triggers ∧
      (mce_common_quit (common_initial_timer_fires env (mce_common_init c reg).1 (mce_common_init c reg).2 ok1 ok2 ok3 ok4).1.1 (common_initial_timer_fires env (mce_common_init c reg).1 (mce_common_init c reg).2 ok1 ok2 ok3 ok4).1.2).2.setting_notifiers = reg.setting_notifiers ∧
      (mce_common_quit (common_initial_timer_fires env (mce_common_init c reg).1 (mce_common_init c reg).2 ok1 ok2 ok3 ok4).1.1 (common_initial_timer_fires env (mce_common_init c reg).1 (mce_common_init c reg).2 ok1 ok2 ok3 ok4).1.2).2.dbus_handlers.Perm reg.dbus_handlers ∧
      (mce_common_quit (common_initial_timer_fires env (mce_common_init c reg).1 (mce_common_init c reg).2 ok1 ok2 ok3 ok4).1.1 (common_initial_timer_fires env (mce_common_init c reg).1 (mce_common_init c reg).2 ok1 ok2 ok3 ok4).1.2).2.timers = reg.timers ∧
      (mce_common_quit (common_initial_timer_fires env (mce_common_init c reg).1 (mce_common_init c reg).2 ok1 ok2 ok3 ok4).1.1 (common_initial_timer_fires env (mce_common_init c reg).1 (mce_common_init c reg).2 ok1 ok2 ok3 ok4).1.2).1.common_dbus_initial_id = 0) := by
  have p1 := g_module_unload_after_init s reg store
  have p2 := g_module_check_init_registrations s reg store
  have c1 := mce_common_quit_after_init c reg hc
  have c2 := mce_common_init_registrations c reg hc
  have c3 := mce_common_quit_after_timer env c reg ok1 ok2 ok3 ok4 hc
  refine ⟨p1, ⟨?_, ?_, ?_, p2.2.2.2.symm⟩, c1, ⟨?_, c2.2.1.symm, ?_, c2.2.2.2.1⟩,
    ⟨?_, ?_⟩, c3⟩
  · rw [p2.1]
    exact List.prefix_append _ _
  · rw [p2.2.1]
    exact List.prefix_append _ _
  · rw [p2.2.2.1]
    exact List.prefix_append _ _
  · rw [c2.1]
    exact List.prefix_append _ _
  · rw [c2.2.2.1]
    exact List.prefix_append _ _
  · rw [c2.2.2.2.2]
    exact fun h => (fresh_id_ne_zero _).mp h
  · intro e he
    rw [c1.2.2.2.1] at he
    rw [c2.2.2.2.2]
    have := lt_fresh_id _ _ (List.mem_map_of_mem Prod.fst he)
    omega

/-- C13, evaluated: from the sample registration state, which holds
registrations of other owners, `mce_common_init` queues the startup timer under
id 10 next to the pending timer 9 of another owner, and `mce_common_quit`
leaves exactly the timer 9 pending; `g_module_check_init` followed by
`g_module_unload` leaves the one settings notifier of the other owner. -/
theorem init_then_teardown_sample :
    (mce_common_init sampleCommon sampleRegistrations).2.timers =
      [(9, Callback.other 4), (10, Callback.common_dbus_initial_cb)] ∧
    (mce_common_quit (mce_common_init sampleCommon sampleRegistrations).1
        (mce_common_init sampleCommon sampleRegistrations).2).2.timers =
      [(9, Callback.other 4)] ∧
    (g_module_unload (g_module_check_init samplePsm sampleRegistrations ⟨none, none, none⟩).1
        (g_module_check_init samplePsm sampleRegistrations
          ⟨none, none, none⟩).2).2.setting_notifiers =
      [(4, SettingKey.other 1, Callback.other 3)] :=
  have h := init_then_teardown_restores samplePsm sampleCommon sampleRegistrations
    ⟨none, none, none⟩ sampleEnv true true true true rfl
  ⟨h.2.2.2.1.2.2.2.trans (by decide), h.2.2.1.2.2.2.1, h.1.2.1⟩

/-- A sequence of calls in which every argument append succeeds is a run with
the append outcome `true`. -/
theorem psm_run_outcomes_all_true (send_ok : Bool) (evs : List PsmEvent) :
    ∀ s : PsmState,
      psm_run_outcomes send_ok s (evs.map (fun e => (true, e))) =
        psm_run true send_ok s evs := by
  induction evs with
  | nil =>
    intro s
    rfl
  | cons e es ih =>
    intro s
    simp only [List.map_cons, psm_run_outcomes, psm_run, ih]

end MCE
